import Mathlib

set_option maxRecDepth 200000

/-
Verification development for the context-assembly core of the repository
(`core/optimization/token_optimizer.py` and `core/optimization/context_manager.py`).

The Python code is shallowly embedded as pure Lean functions:
 * Python `str` is `String` (a list of code points, matching Python's
   code-point indexing and `len`); `s[:n]` is `pyTake`, `.lower()` is
   `pyLower` (ASCII case mapping; all concrete inputs below are chosen so
   this coincides with Python), `.split()` is `pySplitWS`, `.split(sep)`
   is `pySplitOn`, `.strip()` is `pyStrip` (all structural, so they
   reduce inside the kernel).
 * Python `float` arithmetic on the small scores/ratios used here is
   modelled with `ℚ` (exact rationals); all constants involved are far
   from any comparison threshold, so IEEE rounding cannot change a branch.
 * Python dicts are insertion-ordered association lists (`pyDictSet`
   updates in place, new keys append — CPython semantics).
 * `hashlib.md5(...).hexdigest()` and `hashlib.sha256(...).hexdigest()`
   are implemented concretely (`md5Hex`, `sha256Hex`) over the UTF-8
   bytes of the string, as in `str.encode()`.
 * `list.sort` / `sorted` is a stable sort (`pyStableSortBy`), matching
   CPython's stable sort, including `reverse=True` keeping ties in
   original order.
 * External collaborators are parameters of an `Env` record: the tiktoken
   token counter (`countTokens`), the LLM manager (`hasLLM`, `generate`:
   `some text` models a successful `query_multiple` response, `none`
   models every model erroring), the `re`-based section splitters used by
   `_split_by_qa` / `_split_by_legal_sections` (`qaSplitExt`,
   `legalSplitExt`; every concrete run below either routes to the
   fully-embedded paragraph splitter or uses content with no Q/A markers,
   where `re.findall` returns `[]` and the code takes its embedded
   fallback), and the wall clock `now` in seconds (durations recorded in
   metadata are therefore 0; no claim depends on a duration value).
-/

/-! ## Python string helpers -/

/-- Python `s[:n]`: the first `n` code points. -/
def pyTake (s : String) (n : Nat) : String := String.mk (s.data.take n)

/-- Python `str.lower()` restricted to ASCII case mapping. -/
def pyLower (s : String) : String := String.mk (s.data.map Char.toLower)

/-- Is the first list an initial segment of the second? -/
def charsLead : List Char → List Char → Bool
  | [], _ => true
  | _ :: _, [] => false
  | a :: as, b :: bs => a = b && charsLead as bs

/-- Does the first list occur contiguously inside the second? -/
def charsInside (sub : List Char) : List Char → Bool
  | [] => charsLead sub []
  | b :: bs => charsLead sub (b :: bs) || charsInside sub bs

/-- Python `sub in s` substring membership. -/
def strContains (s sub : String) : Bool := charsInside sub.data s.data

/-- Accumulating splitter for `str.split()`: groups of non-whitespace
characters, whitespace runs dropped (`acc` holds the current word reversed). -/
def splitWSAux : List Char → List Char → List (List Char)
  | [], acc => if acc = [] then [] else [acc.reverse]
  | c :: rest, acc =>
    if c.isWhitespace then
      if acc = [] then splitWSAux rest [] else acc.reverse :: splitWSAux rest []
    else splitWSAux rest (c :: acc)

/-- Python `s.split()` with no separator: split on whitespace runs, dropping empties. -/
def pySplitWS (s : String) : List String := (splitWSAux s.data []).map String.mk

/-- Fuel-driven splitter on an explicit separator (leftmost, non-overlapping;
empty pieces kept), matching Python `s.split(sep)` for non-empty `sep`. -/
def charsSplitOnAux (sep : List Char) : Nat → List Char → List (List Char)
  | _, [] => [[]]
  | 0, l => [l]
  | fuel + 1, c :: rest =>
    if charsLead sep (c :: rest) ∧ sep ≠ [] then
      [] :: charsSplitOnAux sep fuel ((c :: rest).drop sep.length)
    else
      match charsSplitOnAux sep fuel rest with
      | [] => [[c]]
      | g :: gs => (c :: g) :: gs

/-- Python `s.split(sep)` for a non-empty separator. -/
def pySplitOn (s sep : String) : List String :=
  (charsSplitOnAux sep.data (s.data.length + 1) s.data).map String.mk

/-- Python `str.strip()` (whitespace from both ends). -/
def pyStrip (s : String) : String :=
  String.mk (((s.data.dropWhile Char.isWhitespace).reverse.dropWhile
    Char.isWhitespace).reverse)

/-- Python `str.capitalize()` (ASCII): first character upper-cased, the rest lower-cased. -/
def pyCapitalize (s : String) : String :=
  match s.data with
  | [] => ""
  | c :: rest => String.mk (c.toUpper :: rest.map Char.toLower)

/-- Python `words[-k:]` for `k = 0` returns the whole list (a `-0` slice),
otherwise the last `k` elements. -/
def pyTailSlice (k : Nat) (l : List String) : List String :=
  if k = 0 then l else l.drop (l.length - k)

/-- Byte-wise (code-point-wise) `≤` on char lists: Python's string ordering. -/
def charsLe : List Char → List Char → Bool
  | [], _ => true
  | _ :: _, [] => false
  | a :: as, b :: bs =>
    if a.toNat < b.toNat then true
    else if b.toNat < a.toNat then false
    else charsLe as bs

/-- Python string `≤` (lexicographic on code points). -/
def pyStrLe (s t : String) : Bool := charsLe s.data t.data

/-! ## Stable sort (Python's `sorted` / `list.sort`) -/

/-- Insert `x` after every element strictly preceding it (`ltB`), before the
first element that does not strictly precede it.  Folding this from the
right is a stable sort: equal elements keep their original order. -/
def pyInsertSorted (ltB : α → α → Bool) (x : α) : List α → List α
  | [] => [x]
  | y :: ys => if ltB y x then y :: pyInsertSorted ltB x ys else x :: y :: ys

/-- Stable sort by a non-strict comparison `leB` (Python `sorted`).  For
`reverse=True` call it with the flipped comparison, which also matches
CPython (ties keep original order, the list is not reversed). -/
def pyStableSortBy (leB : α → α → Bool) (l : List α) : List α :=
  l.foldr (pyInsertSorted (fun y x => leB y x && !leB x y)) []

/-! ## Python dict as insertion-ordered association list -/

/-- Python `d[k]` / `d.get(k)`. -/
def pyDictGet : List (String × α) → String → Option α
  | [], _ => none
  | (k2, v) :: rest, k => if k2 = k then some v else pyDictGet rest k

/-- Python `d[k] = v`: update in place if the key exists, else append. -/
def pyDictSet : List (String × α) → String → α → List (String × α)
  | [], k, v => [(k, v)]
  | (k2, v2) :: rest, k, v =>
    if k2 = k then (k, v) :: rest else (k2, v2) :: pyDictSet rest k v

/-- Python `del d[k]`, keeping the order of the remaining entries. -/
def pyDictDel (d : List (String × α)) (k : String) : List (String × α) :=
  d.filter (fun p => p.1 ≠ k)

/-- Python `{**a, **b}`. -/
def pyDictMerge (a b : List (String × α)) : List (String × α) :=
  b.foldl (fun acc p => pyDictSet acc p.1 p.2) a

/-! ## UTF-8 encoding (Python `str.encode()`) -/

/-- UTF-8 bytes of one code point. -/
def utf8Char (c : Char) : List Nat :=
  let n := c.toNat
  if n < 128 then [n]
  else if n < 2048 then [192 + n / 64, 128 + n % 64]
  else if n < 65536 then [224 + n / 4096, 128 + (n / 64) % 64, 128 + n % 64]
  else [240 + n / 262144, 128 + (n / 4096) % 64, 128 + (n / 64) % 64, 128 + n % 64]

/-- UTF-8 bytes of a string (Python `s.encode()`). -/
def utf8Bytes (s : String) : List Nat := s.data.flatMap utf8Char

/-! ## MD5 (for `hashlib.md5(...).hexdigest()`) -/

def u32 (n : Nat) : Nat := n % 4294967296

def rotl32 (x n : Nat) : Nat := ((x <<< n) % 4294967296) ||| (x >>> (32 - n))

def md5K : List Nat :=
  [0xd76aa478, 0xe8c7b756, 0x242070db, 0xc1bdceee,
   0xf57c0faf, 0x4787c62a, 0xa8304613, 0xfd469501,
   0x698098d8, 0x8b44f7af, 0xffff5bb1, 0x895cd7be,
   0x6b901122, 0xfd987193, 0xa679438e, 0x49b40821,
   0xf61e2562, 0xc040b340, 0x265e5a51, 0xe9b6c7aa,
   0xd62f105d, 0x02441453, 0xd8a1e681, 0xe7d3fbc8,
   0x21e1cde6, 0xc33707d6, 0xf4d50d87, 0x455a14ed,
   0xa9e3e905, 0xfcefa3f8, 0x676f02d9, 0x8d2a4c8a,
   0xfffa3942, 0x8771f681, 0x6d9d6122, 0xfde5380c,
   0xa4beea44, 0x4bdecfa9, 0xf6bb4b60, 0xbebfbc70,
   0x289b7ec6, 0xeaa127fa, 0xd4ef3085, 0x04881d05,
   0xd9d4d039, 0xe6db99e5, 0x1fa27cf8, 0xc4ac5665,
   0xf4292244, 0x432aff97, 0xab9423a7, 0xfc93a039,
   0x655b59c3, 0x8f0ccc92, 0xffeff47d, 0x85845dd1,
   0x6fa87e4f, 0xfe2ce6e0, 0xa3014314, 0x4e0811a1,
   0xf7537e82, 0xbd3af235, 0x2ad7d2bb, 0xeb86d391]

def md5S : List Nat :=
  [7, 12, 17, 22, 7, 12, 17, 22, 7, 12, 17, 22, 7, 12, 17, 22,
   5, 9, 14, 20, 5, 9, 14, 20, 5, 9, 14, 20, 5, 9, 14, 20,
   4, 11, 16, 23, 4, 11, 16, 23, 4, 11, 16, 23, 4, 11, 16, 23,
   6, 10, 15, 21, 6, 10, 15, 21, 6, 10, 15, 21, 6, 10, 15, 21]

def md5F (i b c d : Nat) : Nat :=
  if i < 16 then (b &&& c) ||| ((4294967295 - b) &&& d)
  else if i < 32 then (d &&& b) ||| ((4294967295 - d) &&& c)
  else if i < 48 then b ^^^ c ^^^ d
  else c ^^^ (b ||| (4294967295 - d))

def md5G (i : Nat) : Nat :=
  if i < 16 then i
  else if i < 32 then (5 * i + 1) % 16
  else if i < 48 then (3 * i + 5) % 16
  else (7 * i) % 16

def md5Step (m : List Nat) (st : Nat × Nat × Nat × Nat) (i : Nat) :
    Nat × Nat × Nat × Nat :=
  let a := st.1
  let b := st.2.1
  let c := st.2.2.1
  let d := st.2.2.2
  let f := u32 (md5F i b c d + a + md5K.getD i 0 + m.getD (md5G i) 0)
  (d, u32 (b + rotl32 f (md5S.getD i 0)), b, c)

/-- Little-endian 32-bit words from a byte list. -/
def toWordsLE : List Nat → List Nat
  | b0 :: b1 :: b2 :: b3 :: rest =>
    (b0 + b1 * 256 + b2 * 65536 + b3 * 16777216) :: toWordsLE rest
  | _ => []

def leBytes8 (n : Nat) : List Nat :=
  [n % 256, n / 256 % 256, n / 65536 % 256, n / 16777216 % 256,
   n / 4294967296 % 256, n / 1099511627776 % 256,
   n / 281474976710656 % 256, n / 72057594037927936 % 256]

def wordBytesLE (w : Nat) : List Nat :=
  [w % 256, w / 256 % 256, w / 65536 % 256, w / 16777216 % 256]

def md5Pad (msg : List Nat) : List Nat :=
  let len := msg.length
  msg ++ 128 :: List.replicate ((119 - len % 64) % 64) 0 ++ leBytes8 (len * 8)

/-- Split a byte list into 64-byte blocks (fuel-based so it reduces in the kernel). -/
def toBlocksAux : Nat → List Nat → List (List Nat)
  | 0, _ => []
  | _, [] => []
  | fuel + 1, l => l.take 64 :: toBlocksAux fuel (l.drop 64)

def toBlocks (l : List Nat) : List (List Nat) := toBlocksAux (l.length + 1) l

def md5Block (st : Nat × Nat × Nat × Nat) (blk : List Nat) : Nat × Nat × Nat × Nat :=
  let w := toWordsLE blk
  let r := (List.range 64).foldl (md5Step w) st
  (u32 (st.1 + r.1), u32 (st.2.1 + r.2.1), u32 (st.2.2.1 + r.2.2.1),
   u32 (st.2.2.2 + r.2.2.2))

def hexDigitChar (n : Nat) : Char :=
  if n < 10 then Char.ofNat (48 + n) else Char.ofNat (87 + n)

def byteToHexChars (b : Nat) : List Char := [hexDigitChar (b / 16), hexDigitChar (b % 16)]

def bytesToHex (l : List Nat) : String := String.mk (l.flatMap byteToHexChars)

/-- `hashlib.md5(bytes).hexdigest()`. -/
def md5Hex (msg : List Nat) : String :=
  let st := (toBlocks (md5Pad msg)).foldl md5Block
    (0x67452301, 0xefcdab89, 0x98badcfe, 0x10325476)
  bytesToHex (wordBytesLE st.1 ++ wordBytesLE st.2.1 ++ wordBytesLE st.2.2.1 ++
    wordBytesLE st.2.2.2)

/-! ## SHA-256 (for `hashlib.sha256(...).hexdigest()`) -/

def rotr32 (x n : Nat) : Nat := (x >>> n) ||| ((x <<< (32 - n)) % 4294967296)

def sha256K : List Nat :=
  [1116352408, 1899447441, 3049323471, 3921009573,
   961987163, 1508970993, 2453635748, 2870763221,
   3624381080, 310598401, 607225278, 1426881987,
   1925078388, 2162078206, 2614888103, 3248222580,
   3835390401, 4022224774, 264347078, 604807628,
   770255983, 1249150122, 1555081692, 1996064986,
   2554220882, 2821834349, 2952996808, 3210313671,
   3336571891, 3584528711, 113926993, 338241895,
   666307205, 773529912, 1294757372, 1396182291,
   1695183700, 1986661051, 2177026350, 2456956037,
   2730485921, 2820302411, 3259730800, 3345764771,
   3516065817, 3600352804, 4094571909, 275423344,
   430227734, 506948616, 659060556, 883997877,
   958139571, 1322822218, 1537002063, 1747873779,
   1955562222, 2024104815, 2227730452, 2361852424,
   2428436474, 2756734187, 3204031479, 3329325298]

def ssig0 (x : Nat) : Nat := rotr32 x 7 ^^^ rotr32 x 18 ^^^ (x >>> 3)
def ssig1 (x : Nat) : Nat := rotr32 x 17 ^^^ rotr32 x 19 ^^^ (x >>> 10)
def bsig0 (x : Nat) : Nat := rotr32 x 2 ^^^ rotr32 x 13 ^^^ rotr32 x 22
def bsig1 (x : Nat) : Nat := rotr32 x 6 ^^^ rotr32 x 11 ^^^ rotr32 x 25

def toWordsBE : List Nat → List Nat
  | b0 :: b1 :: b2 :: b3 :: rest =>
    (b0 * 16777216 + b1 * 65536 + b2 * 256 + b3) :: toWordsBE rest
  | _ => []

def beBytes8 (n : Nat) : List Nat :=
  [n / 72057594037927936 % 256, n / 281474976710656 % 256,
   n / 1099511627776 % 256, n / 4294967296 % 256,
   n / 16777216 % 256, n / 65536 % 256, n / 256 % 256, n % 256]

def sha256Pad (msg : List Nat) : List Nat :=
  let len := msg.length
  msg ++ 128 :: List.replicate ((119 - len % 64) % 64) 0 ++ beBytes8 (len * 8)

def sha256Schedule (w16 : List Nat) : List Nat :=
  (List.range 48).foldl
    (fun w i =>
      w ++ [u32 (ssig1 (w.getD (i + 14) 0) + w.getD (i + 9) 0 +
        ssig0 (w.getD (i + 1) 0) + w.getD i 0)])
    w16

structure Sha256St where
  a : Nat
  b : Nat
  c : Nat
  d : Nat
  e : Nat
  f : Nat
  g : Nat
  h : Nat

def sha256Step (w : List Nat) (st : Sha256St) (i : Nat) : Sha256St :=
  let ch := (st.e &&& st.f) ^^^ ((4294967295 - st.e) &&& st.g)
  let maj := (st.a &&& st.b) ^^^ (st.a &&& st.c) ^^^ (st.b &&& st.c)
  let t1 := u32 (st.h + bsig1 st.e + ch + sha256K.getD i 0 + w.getD i 0)
  let t2 := u32 (bsig0 st.a + maj)
  ⟨u32 (t1 + t2), st.a, st.b, st.c, u32 (st.d + t1), st.e, st.f, st.g⟩

def sha256Block (st : Sha256St) (blk : List Nat) : Sha256St :=
  let w := sha256Schedule (toWordsBE blk)
  let r := (List.range 64).foldl (sha256Step w) st
  ⟨u32 (st.a + r.a), u32 (st.b + r.b), u32 (st.c + r.c), u32 (st.d + r.d),
   u32 (st.e + r.e), u32 (st.f + r.f), u32 (st.g + r.g), u32 (st.h + r.h)⟩

def wordBytesBE (w : Nat) : List Nat :=
  [w / 16777216 % 256, w / 65536 % 256, w / 256 % 256, w % 256]

/-- `hashlib.sha256(bytes).hexdigest()`. -/
def sha256Hex (msg : List Nat) : String :=
  let st := (toBlocks (sha256Pad msg)).foldl sha256Block
    ⟨1779033703, 3144134277, 1013904242, 2773480762,
     1359893119, 2600822924, 528734635, 1541459225⟩
  bytesToHex (wordBytesBE st.a ++ wordBytesBE st.b ++ wordBytesBE st.c ++
    wordBytesBE st.d ++ wordBytesBE st.e ++ wordBytesBE st.f ++
    wordBytesBE st.g ++ wordBytesBE st.h)

/-! ## Data model (`token_optimizer.py`) -/

/-- The fields of a document's `metadata` dict that the embedded code reads
(`type`, `date`, `filename`, `id`, `page_number`); `none` models an absent
key.  `date` is the `datetime.fromisoformat` result in seconds since the
epoch; `none` also covers an unparsable date (the code's bare `except`). -/
structure DocMeta where
  type : Option String
  date : Option Int
  filename : Option String
  docId : Option String
  pageNumber : Option String
deriving DecidableEq, Repr

/-- A caller-supplied document `{content, metadata}` (`doc.get('content', '')`
and `doc.get('metadata', {})` always succeed in the model). -/
structure Document where
  content : String
  meta : DocMeta
deriving DecidableEq, Repr

/-- Chunk metadata: `{**metadata, 'chunk_index': i, 'chunk_type': doc_type}`. -/
structure ChunkMeta where
  doc : DocMeta
  chunk_index : Nat
  chunk_type : String
deriving DecidableEq, Repr

/-- Values stored in the dynamically-typed `metadata` dicts: numbers
(Python ints and floats, both as `ℚ`), booleans and strings. -/
inductive MetaVal where
  | q (x : ℚ)
  | b (v : Bool)
  | s (v : String)
deriving DecidableEq, Repr

abbrev MetaDict := List (String × MetaVal)

/-- `DocumentChunk` dataclass. -/
structure DocumentChunk where
  content : String
  meta : ChunkMeta
  token_count : Nat
  relevance_score : ℚ
  summary : Option String
  chunk_id : String
deriving DecidableEq, Repr

/-- `DocumentChunk.__post_init__` with empty `chunk_id`:
`hashlib.md5(content.encode()).hexdigest()[:8]`. -/
def mkChunk (content : String) (meta : ChunkMeta) (token_count : Nat) : DocumentChunk :=
  { content := content, meta := meta, token_count := token_count,
    relevance_score := 0, summary := none,
    chunk_id := pyTake (md5Hex (utf8Bytes content)) 8 }

/-- `OptimizationResult` dataclass.  `compression_rate` embeds the source
field `compression_ratio`; `chunks_included` is `ℚ` because the cache-hit
path reads it back out of a metadata dict. -/
structure OptimizationResult where
  optimized_context : String
  total_tokens : Nat
  compression_rate : ℚ
  cost_estimate : ℚ
  strategy_used : String
  chunks_included : ℚ
  metadata : MetaDict
deriving DecidableEq, Repr

/-- External collaborators and the clock, as one parameter record (see the
header comment).  `generate prompt maxTok = some text` models a
`query_multiple` call where some model answered without error (the code
returns that answer); `none` models every model erroring. -/
structure Env where
  countTokens : String → Nat
  hasLLM : Bool
  generate : String → Nat → Option String
  qaSplitExt : String → List String
  legalSplitExt : String → List String
  now : Int

/-! ## TokenOptimizer -/

/-- `self.token_limits`. -/
def token_limits : List (String × Nat) :=
  [("GPT-4o", 128000), ("Claude Opus 4", 200000), ("GPT-3.5", 16000),
   ("Mistral", 32000), ("Gemini", 32000), ("DeepSeek", 32000),
   ("Perplexity", 4000)]

/-- Per-1k-token costs in `_estimate_cost`. -/
def llm_costs : List (String × ℚ) :=
  [("GPT-4o", 5/1000), ("GPT-3.5", 5/10000), ("Claude Opus 4", 15/1000),
   ("Mistral", 2/1000), ("Gemini", 25/100000), ("DeepSeek", 14/100000),
   ("Perplexity", 1/1000)]

/-- `TokenOptimizer._estimate_cost`. -/
def estimate_cost (model : String) (tokens : Nat) : ℚ :=
  ((tokens : ℚ) / 1000) * ((pyDictGet llm_costs model).getD (1/1000))

/-- The level-1 prompt of `_generate_summary`. -/
def level1Prompt (content focus : String) (max_length : Nat) : String :=
  "Résumez ce document juridique en mettant l'accent sur les éléments pertinents pour la requête suivante : \"" ++
  focus ++ "\"\n            \nLimitez le résumé à environ " ++ toString max_length ++
  " mots.\nIncluez :\n- Les faits essentiels\n- Les dates importantes\n- Les personnes clés\n- Les éléments de preuve pertinents\n\nDocument :\n" ++
  pyTake content 5000 ++ "..."

/-- The level-2 prompt of `_generate_summary`. -/
def level2Prompt (content focus : String) (max_length : Nat) : String :=
  "Créez un résumé exécutif ultra-condensé de ces résumés de documents pour répondre à : \"" ++
  focus ++ "\"\n\nMaximum " ++ toString max_length ++
  " mots.\nFocalisez sur :\n- Les points critiques pour la requête\n- Les contradictions majeures\n- Les conclusions essentielles\n\nRésumés :\n" ++
  content

/-- `TokenOptimizer._generate_summary`.  With no LLM manager: head+tail word
windowing joined by the elision marker (with the Python `words[-k:]` slice,
including its `k = 0` behaviour).  With a manager: ask `generate`; on
success return its text, on failure (`none`) return `content[:max_length*5]`. -/
def generate_summary (env : Env) (content : String) (level : Nat)
    (focus : String) (max_length : Nat) : String :=
  if env.hasLLM = false then
    let words := pySplitWS content
    if words.length > max_length / 5 then
      let k := max_length / 10
      String.intercalate " " (words.take k) ++ "... [contenu résumé] ... " ++
        String.intercalate " " (pyTailSlice k words)
    else content
  else
    let prompt := if level = 1 then level1Prompt content focus max_length
      else level2Prompt content focus max_length
    match env.generate prompt (max_length * 2) with
    | some text => text
    | none => pyTake content (max_length * 5)

/-- One step of the paragraph-accumulation loop in `_split_by_paragraphs`.
State: `(chunks so far, current paragraph group, its character size)`. -/
def paraStep (chunk_size overlap : Nat) (st : List String × List String × Nat)
    (para : String) : List String × List String × Nat :=
  let para_size := para.length
  let st2 :=
    if st.2.2 + para_size > chunk_size ∧ st.2.1 ≠ [] then
      let chunks := st.1 ++ [String.intercalate "\n\n" st.2.1]
      if overlap > 0 then
        let lastTwo := st.2.1.drop (st.2.1.length - 2)
        let overlap_text := String.intercalate "\n\n" lastTwo
        if overlap_text.length < overlap then (chunks, lastTwo, overlap_text.length)
        else (chunks, [], 0)
      else (chunks, [], 0)
    else st
  (st2.1, st2.2.1 ++ [para], st2.2.2 + para_size)

/-- `TokenOptimizer._split_by_paragraphs`. -/
def split_by_paragraphs (content : String) (chunk_size overlap : Nat) : List String :=
  let st := (pySplitOn content "\n\n").foldl (paraStep chunk_size overlap) ([], [], 0)
  if st.2.1 ≠ [] then st.1 ++ [String.intercalate "\n\n" st.2.1] else st.1

/-- `TokenOptimizer._split_by_qa`.  The `re.findall` pass over the Q/A
patterns is the external regex engine (`env.qaSplitExt`); an empty match
list falls back to `content.split('\n\n')`.  Results are stripped and
empties dropped, as in the source. -/
def split_by_qa (env : Env) (content : String) : List String :=
  let sections := env.qaSplitExt content
  let sections := if sections = [] then pySplitOn content "\n\n" else sections
  (sections.map pyStrip).filter (fun s => s ≠ "")

/-- `TokenOptimizer._split_by_legal_sections`, with `env.legalSplitExt` as
the regex pass and the paragraph splitter (default sizes) as fallback. -/
def split_by_legal_sections (env : Env) (content : String) : List String :=
  let sections := env.legalSplitExt content
  let sections := if sections = [] then split_by_paragraphs content 1000 200 else sections
  (sections.map pyStrip).filter (fun s => s ≠ "")

/-- `TokenOptimizer._create_smart_chunks`. -/
def create_smart_chunks (env : Env) (content : String) (meta : DocMeta) :
    List DocumentChunk :=
  let doc_type := meta.type.getD "general"
  let sections :=
    if doc_type = "audition" ∨ doc_type = "interrogatoire" then split_by_qa env content
    else if doc_type = "jugement" ∨ doc_type = "arrêt" then split_by_legal_sections env content
    else split_by_paragraphs content 1000 200
  sections.enum.map (fun p =>
    mkChunk p.2 { doc := meta, chunk_index := p.1, chunk_type := doc_type }
      (env.countTokens p.2))

/-- `set(s.lower().split())`. -/
def tokSet (s : String) : Finset String := (pySplitWS (pyLower s)).toFinset

/-- `s.lower().split()` deduplicated, for iteration over a Python set where
only the count of matching members is used. -/
def tokList (s : String) : List String := (pySplitWS (pyLower s)).dedup

/-- The `doc_type_scores` table in `_score_chunks`. -/
def doc_type_scores : List (String × ℚ) :=
  [("audition", 9/10), ("jugement", 8/10), ("expertise", 7/10),
   ("correspondance", 5/10)]

/-- The per-chunk body of `TokenOptimizer._score_chunks`.  The embedding
lookup (`_get_embedding`) is computed and discarded by the source; the
semantic score is the hard-coded constant `0.5` in every case. -/
def score_chunk (env : Env) (query : String) (chunk : DocumentChunk) :
    DocumentChunk :=
  let semantic_score : ℚ := 1/2
  let query_words := tokSet query
  let chunk_words := tokSet chunk.content
  let keyword_score : ℚ :=
    if query_words ≠ ∅ then
      ((query_words ∩ chunk_words).card : ℚ) / (query_words.card : ℚ)
    else 0
  let type_score : ℚ := (pyDictGet doc_type_scores (chunk.meta.doc.type.getD "")).getD (1/2)
  let date_score : ℚ :=
    match chunk.meta.doc.date with
    | none => 1/2
    | some d => max (1/10) (1 - ((Int.fdiv (env.now - d) 86400 : Int) : ℚ) / 365)
  { chunk with relevance_score :=
      semantic_score * (4/10) + keyword_score * (3/10) + type_score * (2/10) +
        date_score * (1/10) }

/-- `TokenOptimizer._score_chunks` (scores every chunk; list order kept). -/
def score_chunks (env : Env) (chunks : List DocumentChunk) (query : String) :
    List DocumentChunk :=
  chunks.map (score_chunk env query)

/-- Round-half-to-even, for Python's `format(x, '.0%')`. -/
def roundHalfEven (x : ℚ) : Int :=
  let f := ⌊x⌋
  let r := x - (f : ℚ)
  if r < 1/2 then f else if (1 : ℚ)/2 < r then f + 1
  else if f % 2 = 0 then f else f + 1

/-- `f"{score:.0%}"`. -/
def pctRender (x : ℚ) : String := toString (roundHalfEven (x * 100)) ++ "%"

/-- Grouping into an insertion-ordered dict of lists (`grouped[k].append(x)`). -/
def groupByKey (key : α → String) (l : List α) : List (String × List α) :=
  l.foldl (fun acc x =>
    let k := key x
    match pyDictGet acc k with
    | some g => pyDictSet acc k (g ++ [x])
    | none => acc ++ [(k, [x])]) []

/-- One chunk's block in `_organize_chunks` (summary used only when truthy). -/
def chunkRender (c : DocumentChunk) : String :=
  "**Source : " ++ c.meta.doc.filename.getD "Document" ++ " (Page " ++
    c.meta.doc.pageNumber.getD "N/A" ++ ")**\n" ++
  "*Pertinence : " ++ pctRender c.relevance_score ++ "*\n\n" ++
  (match c.summary with
   | some s => if s = "" then c.content else s
   | none => c.content) ++ "\n\n---\n\n"

/-- `TokenOptimizer._organize_chunks`.  Note the source groups under the
default type `'Autre'` (capital A) while the priority list contains
`'autre'`, so untyped chunks are grouped but never rendered. -/
def organize_chunks (chunks : List DocumentChunk) (query : String) : String :=
  let grouped := groupByKey (fun c => c.meta.doc.type.getD "Autre") chunks
  let priority_order := ["jugement", "audition", "expertise", "rapport",
    "correspondance", "autre"]
  priority_order.foldl (fun acc t =>
    match pyDictGet grouped t with
    | none => acc
    | some group =>
      acc ++ "### " ++ pyCapitalize t ++ "s\n\n" ++
        String.join ((pyStableSortBy
          (fun a b => decide (b.relevance_score ≤ a.relevance_score)) group).map
          chunkRender))
    ("## Contexte pour la requête : " ++ query ++ "\n\n")

/-- An entry of `level1_summaries` in `_hierarchical_summarization`. -/
structure L1Summary where
  summary : String
  meta : DocMeta
  original_length : Nat
deriving DecidableEq, Repr

/-- `TokenOptimizer._combine_summaries`. -/
def combine_summaries (summaries : List L1Summary) (query : String) : String :=
  let by_type := groupByKey (fun sd => sd.meta.type.getD "general") summaries
  by_type.foldl (fun acc p =>
    acc ++ "### " ++ pyCapitalize p.1 ++ "\n\n" ++
      String.join (p.2.map (fun item => item.summary ++ "\n\n")))
    ("## Résumé du dossier pour : " ++ query ++ "\n\n")

/-- The greedy selection step in `_extract_relevant_excerpts`.  The token
budget is an `Int` because the caller passes `max_tokens - len(summary)`,
which can be negative in Python. -/
def excerptStep (env : Env) (maxTok : Int)
    (st : List (String × DocMeta) × Nat) (e : Nat × String × DocMeta) :
    List (String × DocMeta) × Nat :=
  let t := env.countTokens e.2.1
  if (st.2 : Int) + t ≤ maxTok then (st.1 ++ [(e.2.1, e.2.2)], st.2 + t) else st

/-- `TokenOptimizer._extract_relevant_excerpts`. -/
def extract_relevant_excerpts (env : Env) (documents : List Document)
    (query : String) (maxTok : Int) : String :=
  let query_words := tokList query
  let excerpts := documents.flatMap (fun doc =>
    (pySplitOn doc.content "\n\n").filterMap (fun para =>
      let para_lower := pyLower para
      let score := query_words.countP (fun w => strContains para_lower w)
      if score > 0 then some (score, para, doc.meta) else none))
  let sortedE := pyStableSortBy (fun a b => decide (b.1 ≤ a.1)) excerpts
  let sel := sortedE.foldl (excerptStep env maxTok) ([], 0)
  String.join (sel.1.map (fun em =>
    "**[" ++ em.2.filename.getD "Document" ++ "]**\n" ++ em.1 ++ "\n\n"))

/-- `TokenOptimizer._hierarchical_summarization`.  The per-document summary
cache is omitted: `generate_summary` is a pure function of its arguments
here, so caching cannot change any result.  Durations are 0 (see header). -/
def hierarchical_summarization (env : Env) (documents : List Document)
    (query target_model : String) (max_tokens : Nat) : OptimizationResult :=
  let level1_summaries := documents.map (fun doc =>
    { summary := generate_summary env doc.content 1 query 500,
      meta := doc.meta, original_length := doc.content.length })
  let combined_summaries := combine_summaries level1_summaries query
  let combined_tokens := env.countTokens combined_summaries
  let raw_tokens := env.countTokens
    (String.intercalate "\n\n" (documents.map (fun d => d.content)))
  if combined_tokens ≤ max_tokens then
    { optimized_context := combined_summaries,
      total_tokens := combined_tokens,
      compression_rate := (combined_tokens : ℚ) / (raw_tokens : ℚ),
      cost_estimate := estimate_cost target_model combined_tokens,
      strategy_used := "hierarchical_level1",
      chunks_included := (documents.length : ℚ),
      metadata := [("processing_time", MetaVal.q 0), ("summary_levels", MetaVal.q 1)] }
  else
    let level2_summary := generate_summary env combined_summaries 2 query (max_tokens / 2)
    let relevant_excerpts := extract_relevant_excerpts env documents query
      ((max_tokens : Int) - (env.countTokens level2_summary : Int))
    let final_context := "## Résumé global du dossier\n\n" ++ level2_summary ++
      "\n\n## Extraits pertinents pour votre requête\n\n" ++ relevant_excerpts
    let final_tokens := env.countTokens final_context
    { optimized_context := final_context,
      total_tokens := final_tokens,
      compression_rate := (final_tokens : ℚ) / (raw_tokens : ℚ),
      cost_estimate := estimate_cost target_model final_tokens,
      strategy_used := "hierarchical_level2",
      chunks_included := (documents.length : ℚ),
      metadata := [("processing_time", MetaVal.q 0), ("summary_levels", MetaVal.q 2),
        ("excerpts_included", MetaVal.b true)] }

/-- The greedy accept/summarize/skip step of `_smart_chunking` (state:
selected chunks and accumulated token count). -/
def smartSelectStep (env : Env) (query : String) (max_tokens : Nat)
    (st : List DocumentChunk × Nat) (chunk : DocumentChunk) :
    List DocumentChunk × Nat :=
  let chunk_tokens := chunk.token_count
  if st.2 + chunk_tokens ≤ max_tokens then (st.1 ++ [chunk], st.2 + chunk_tokens)
  else if st.2 + 100 < max_tokens then
    let summary := generate_summary env chunk.content 1 query (max_tokens - st.2)
    if env.countTokens summary + st.2 ≤ max_tokens then
      (st.1 ++ [{ chunk with content := summary, summary := some summary }],
       st.2 + env.countTokens summary)
    else st
  else st

/-- `TokenOptimizer._smart_chunking`. -/
def smart_chunking (env : Env) (documents : List Document)
    (query target_model : String) (max_tokens : Nat) : OptimizationResult :=
  let all_chunks := documents.flatMap (fun doc =>
    create_smart_chunks env doc.content doc.meta)
  let scored_chunks := score_chunks env all_chunks query
  let sorted_chunks := pyStableSortBy
    (fun a b => decide (b.relevance_score ≤ a.relevance_score)) scored_chunks
  let sel := sorted_chunks.foldl (smartSelectStep env query max_tokens) ([], 0)
  let organized_context := organize_chunks sel.1 query
  let raw_tokens := env.countTokens
    (String.intercalate "\n\n" (documents.map (fun d => d.content)))
  { optimized_context := organized_context,
    total_tokens := sel.2,
    compression_rate := (sel.2 : ℚ) / (raw_tokens : ℚ),
    cost_estimate := estimate_cost target_model sel.2,
    strategy_used := "smart_chunking",
    chunks_included := (sel.1.length : ℚ),
    metadata := [("processing_time", MetaVal.q 0),
      ("total_chunks", MetaVal.q all_chunks.length),
      ("selected_chunks", MetaVal.q sel.1.length),
      ("avg_relevance_score", MetaVal.q
        (if sel.1.length ≠ 0 then
          ((sel.1.map (fun c => c.relevance_score)).sum) / (sel.1.length : ℚ)
        else 0))] }

/-- The default budget `int(self.token_limits.get(model, 8000) * 0.7)`.
`0.7` is an IEEE double in Python; the exact value `limit * 7 / 10` can in
principle differ from the float computation by one unit, but no claim
depends on the default budget's exact value. -/
def defaultBudget (target_model : String) : Nat :=
  (pyDictGet token_limits target_model).getD 8000 * 7 / 10

/-- `TokenOptimizer.optimize_for_llm`.  Total: the source has no failure
path; every call returns an `OptimizationResult`. -/
def optimize_for_llm (env : Env) (documents : List Document)
    (query target_model strategy : String) (max_tokens : Option Nat) :
    OptimizationResult :=
  let maxT := match max_tokens with
    | some m => m
    | none => defaultBudget target_model
  let total_content := String.intercalate "\n\n" (documents.map (fun d => d.content))
  let current_tokens := env.countTokens total_content
  if current_tokens ≤ maxT then
    { optimized_context := total_content,
      total_tokens := current_tokens,
      compression_rate := 1,
      cost_estimate := estimate_cost target_model current_tokens,
      strategy_used := "none",
      chunks_included := (documents.length : ℚ),
      metadata := [] }
  else
    let strat := if strategy = "auto" then
        (if current_tokens > maxT * 3 then "hierarchical" else "smart_chunking")
      else strategy
    if strat = "hierarchical" then
      hierarchical_summarization env documents query target_model maxT
    else
      smart_chunking env documents query target_model maxT

/-! ## ContextManager (`context_manager.py`) -/

/-- `CachedContext` dataclass (timestamps in seconds, like `Env.now`). -/
structure CachedContext where
  context_id : String
  query : String
  documents_hash : String
  optimized_context : String
  token_count : Nat
  model : String
  strategy : String
  created_at : Int
  last_used : Int
  usage_count : Nat
  metadata : MetaDict
deriving DecidableEq, Repr

/-- `CachedContext.is_valid` with the configured `cache_ttl_hours = 24`:
`datetime.now() - created_at < timedelta(hours=24)`. -/
def cachedIsValid (c : CachedContext) (now : Int) : Bool :=
  now - c.created_at < 86400

/-- The mutable state of a `ContextManager`: the two cache tiers (the
pickle write is a no-op in the model) and the `stats` counters the claims
can observe.  Entries stored under one id are aliased between the tiers in
Python (`_add_to_cache` inserts the same object into both), which the
update operations below reproduce by updating the id in both tiers. -/
structure ManagerState where
  memory_cache : List (String × CachedContext)
  persistent_cache : List (String × CachedContext)
  stats_hits : Nat
  stats_misses : Nat
  stats_tokens_saved : Nat
deriving DecidableEq, Repr

def emptyManagerState : ManagerState :=
  { memory_cache := [], persistent_cache := [], stats_hits := 0,
    stats_misses := 0, stats_tokens_saved := 0 }

/-- `ContextManager._hash_documents`: md5 over `"{doc_id}:{content[:1000]}"`
lines, with the documents sorted (stably) by `metadata.get('filename', '')`. -/
def hash_documents (documents : List Document) : String :=
  let sortedD := pyStableSortBy
    (fun a b => pyStrLe (a.meta.filename.getD "") (b.meta.filename.getD "")) documents
  let contents := sortedD.map (fun d =>
    let content := pyTake d.content 1000
    let rawId := d.meta.docId.getD ""
    let doc_id := if rawId = "" then d.meta.filename.getD "" else rawId
    doc_id ++ ":" ++ content)
  md5Hex (utf8Bytes (String.intercalate "\n" contents))

/-- `ContextManager._generate_context_id`:
`sha256("|".join([hash, query.lower().strip(), model, strategy]))[:16]`. -/
def generate_context_id (documents : List Document)
    (query model strategy : String) : String :=
  let combined := String.intercalate "|"
    [hash_documents documents, pyStrip (pyLower query), model, strategy]
  pyTake (sha256Hex (utf8Bytes combined)) 16

/-- `ContextManager._calculate_query_similarity`: token-set Jaccard plus a
0.1 bonus per shared domain word, clamped at 1. -/
def important_words : Finset String :=
  {"plainte", "conclusions", "analyse", "contradiction", "chronologie"}

def calculate_query_similarity (query1 query2 : String) : ℚ :=
  let words1 := tokSet query1
  let words2 := tokSet query2
  if words1 = ∅ ∨ words2 = ∅ then 0
  else
    let inter := words1 ∩ words2
    let uni := words1 ∪ words2
    let jaccard : ℚ := (inter.card : ℚ) / (uni.card : ℚ)
    let important_common := (words1 ∩ words2) ∩ important_words
    let bonus : ℚ := (important_common.card : ℚ) * (1/10)
    min 1 (jaccard + bonus)

/-- `ContextManager._get_from_cache`: memory tier first, then persistent
(promoting a valid persistent entry into memory); invalid entries are
deleted from their tier.  Returns the found entry and the updated state. -/
def get_from_cache (st : ManagerState) (context_id : String) (now : Int) :
    Option CachedContext × ManagerState :=
  let fromPersistent : ManagerState → Option CachedContext × ManagerState :=
    fun st1 =>
      match pyDictGet st1.persistent_cache context_id with
      | some c =>
        if cachedIsValid c now then
          (some c, { st1 with memory_cache := pyDictSet st1.memory_cache context_id c })
        else
          (none, { st1 with persistent_cache := pyDictDel st1.persistent_cache context_id })
      | none => (none, st1)
  match pyDictGet st.memory_cache context_id with
  | some c =>
    if cachedIsValid c now then (some c, st)
    else fromPersistent { st with memory_cache := pyDictDel st.memory_cache context_id }
  | none => fromPersistent st

/-- `ContextManager._find_similar_context`: same model and document hash,
query similarity at least the configured threshold 0.85; the most similar
candidate wins (stable sort, first of the merged-dict iteration on ties). -/
def find_similar_context (st : ManagerState) (query model : String)
    (documents : List Document) : Option CachedContext :=
  let docs_hash := hash_documents documents
  let all_cached := pyDictMerge st.memory_cache st.persistent_cache
  let candidates := (all_cached.map (fun p => p.2)).filterMap (fun c =>
    if c.model = model ∧ c.documents_hash = docs_hash then
      let similarity := calculate_query_similarity query c.query
      if (85 : ℚ)/100 ≤ similarity then some (similarity, c) else none
    else none)
  match pyStableSortBy (fun a b => decide (b.1 ≤ a.1)) candidates with
  | [] => none
  | best :: _ => some best.2

/-- Read a numeric metadata value the way the dynamically-typed source does
(`metadata.get(key, default)` feeding a numeric field); a Python bool would
coerce as 0/1; a string value cannot arise from the embedded operations. -/
def metaGetQ (d : MetaDict) (k : String) (dflt : ℚ) : ℚ :=
  match pyDictGet d k with
  | some (MetaVal.q x) => x
  | some (MetaVal.b v) => if v then 1 else 0
  | some (MetaVal.s _) => 0
  | none => dflt

/-- `{**base, k₁: v₁, ...}`: fold the updates into the dict. -/
def metaExtend (base : MetaDict) (kvs : List (String × MetaVal)) : MetaDict :=
  kvs.foldl (fun acc kv => pyDictSet acc kv.1 kv.2) base

/-- The `OptimizationResult` rebuilt from a cache hit in
`get_optimized_context` (metadata gains `from_cache` and `cache_age_hours`). -/
def resultFromCache (c : CachedContext) (now : Int) : OptimizationResult :=
  { optimized_context := c.optimized_context,
    total_tokens := c.token_count,
    compression_rate := metaGetQ c.metadata "compression_ratio" 1,
    cost_estimate := metaGetQ c.metadata "cost_estimate" 0,
    strategy_used := c.strategy,
    chunks_included := metaGetQ c.metadata "chunks_included" 0,
    metadata := metaExtend c.metadata
      [("from_cache", MetaVal.b true),
       ("cache_age_hours", MetaVal.q (((now - c.created_at : Int) : ℚ) / 3600))] }

/-- `ContextManager._adapt_similar_context`.  Both branches return a
`(result, True)` pair — never `None` — which the caller then wraps again
(see `GetOut.nested` below). -/
def adapt_similar_context (env : Env) (similar : CachedContext)
    (new_query : String) : OptimizationResult × Bool :=
  let similarity := calculate_query_similarity new_query similar.query
  if (95 : ℚ)/100 ≤ similarity then
    ({ optimized_context := similar.optimized_context,
       total_tokens := similar.token_count,
       compression_rate := metaGetQ similar.metadata "compression_ratio" 1,
       cost_estimate := metaGetQ similar.metadata "cost_estimate" 0,
       strategy_used := similar.strategy,
       chunks_included := metaGetQ similar.metadata "chunks_included" 0,
       metadata := metaExtend similar.metadata
         [("from_cache", MetaVal.b true), ("adapted", MetaVal.b false),
          ("original_query", MetaVal.s similar.query)] }, true)
  else
    let adapted_context := "## Contexte adapté pour : " ++ new_query ++
      "\n*Basé sur une analyse similaire pour : \"" ++ similar.query ++ "\"*\n\n" ++
      similar.optimized_context ++
      "\n\n### Focus spécifique pour votre nouvelle requête\nVeuillez porter une attention particulière aux éléments liés à : " ++
      new_query
    let new_tokens := env.countTokens adapted_context
    ({ optimized_context := adapted_context,
       total_tokens := new_tokens,
       compression_rate := metaGetQ similar.metadata "compression_ratio" 1,
       cost_estimate := metaGetQ similar.metadata "cost_estimate" 0 * (11/10),
       strategy_used := similar.strategy ++ "_adapted",
       chunks_included := metaGetQ similar.metadata "chunks_included" 0,
       metadata := metaExtend similar.metadata
         [("from_cache", MetaVal.b true), ("adapted", MetaVal.b true),
          ("original_query", MetaVal.s similar.query),
          ("similarity_score", MetaVal.q similarity)] }, true)

/-- Python `min(values, key=(usage_count, last_used))`: first minimal entry
in iteration order. -/
def minByUsage (l : List CachedContext) : Option CachedContext :=
  l.foldl (fun acc c =>
    match acc with
    | none => some c
    | some m =>
      if c.usage_count < m.usage_count ∨
         (c.usage_count = m.usage_count ∧ c.last_used < m.last_used) then some c
      else some m) none

/-- A rendering of a metadata value used only for the byte-size estimate
(`json.dumps` in `_get_cache_size_mb`; the source itself calls the size an
approximation, and numbers are rendered here as exact rationals). -/
def jsonValRender : MetaVal → String
  | MetaVal.q x => if x.den = 1 then toString x.num
      else toString x.num ++ "/" ++ toString x.den
  | MetaVal.b true => "true"
  | MetaVal.b false => "false"
  | MetaVal.s v => "\"" ++ v ++ "\""

def jsonDictRender (d : MetaDict) : String :=
  "\x7b" ++ String.intercalate ", "
    (d.map (fun kv => "\"" ++ kv.1 ++ "\": " ++ jsonValRender kv.2)) ++ "\x7d"

/-- `ContextManager._get_cache_size_mb` over the persistent tier. -/
def cacheSizeMB (p : List (String × CachedContext)) : ℚ :=
  ((p.map (fun kv =>
    (utf8Bytes kv.2.optimized_context).length +
      (utf8Bytes (jsonDictRender kv.2.metadata)).length)).sum : ℚ) / 1024 / 1024

/-- `ContextManager._cleanup_cache`: drop expired entries, then — if still
over budget — drop the least-used half in `(usage_count, last_used)` order. -/
def cleanupCache (now : Int) (p : List (String × CachedContext)) :
    List (String × CachedContext) :=
  let p1 := p.filter (fun kv => cachedIsValid kv.2 now)
  if cacheSizeMB p1 > 100 then
    let sortedL := pyStableSortBy (fun a b =>
      decide (a.2.usage_count < b.2.usage_count ∨
        (a.2.usage_count = b.2.usage_count ∧ a.2.last_used ≤ b.2.last_used))) p1
    let to_remove := (sortedL.take (sortedL.length / 2)).map (fun kv => kv.1)
    p1.filter (fun kv => ¬ to_remove.contains kv.1)
  else p1

/-- `ContextManager._save_persistent_cache` (the pickle write is a no-op;
only the over-budget cleanup affects the state). -/
def save_persistent_cache (now : Int) (st : ManagerState) : ManagerState :=
  if cacheSizeMB st.persistent_cache > 100 then
    { st with persistent_cache := cleanupCache now st.persistent_cache }
  else st

/-- `ContextManager._add_to_cache` (memory eviction at `max_memory_cache =
50`, then insertion into both tiers, then the save hook). -/
def add_to_cache (now : Int) (st : ManagerState) (ctx : CachedContext) :
    ManagerState :=
  let mem :=
    if 50 ≤ st.memory_cache.length then
      match minByUsage (st.memory_cache.map (fun p => p.2)) with
      | some oldest => pyDictDel st.memory_cache oldest.context_id
      | none => st.memory_cache
    else st.memory_cache
  save_persistent_cache now
    { st with
      memory_cache := pyDictSet mem ctx.context_id ctx
      persistent_cache := pyDictSet st.persistent_cache ctx.context_id ctx }

/-- Bump `last_used`/`usage_count` of the entry under `context_id`.  In
Python this mutates the object aliased from both tiers, so the model
updates the id wherever it is present. -/
def bumpUsage (st : ManagerState) (context_id : String) (now : Int) :
    ManagerState :=
  let bump : List (String × CachedContext) → List (String × CachedContext) :=
    fun d => d.map (fun kv =>
      if kv.1 = context_id then
        (kv.1, { kv.2 with last_used := now, usage_count := kv.2.usage_count + 1 })
      else kv)
  { st with
    memory_cache := bump st.memory_cache
    persistent_cache := bump st.persistent_cache }

/-- The two shapes `get_optimized_context` actually returns: the annotated
`(OptimizationResult, bool)` pair, and — on the similarity-adaptation path —
the mis-typed nested pair `((result, True), True)` that the source produces
by returning `adapted_result, True` where `adapted_result` is already a
tuple.  Python's dynamic typing permits both; the sum type records which
shape the caller receives. -/
inductive GetOut where
  | ok (result : OptimizationResult) (from_cache : Bool)
  | nested (inner : OptimizationResult × Bool) (outer : Bool)
deriving DecidableEq, Repr

/-- The cache-miss tail of `get_optimized_context`: run the optimizer,
wrap the result in a `CachedContext` and store it in both tiers. -/
def missCompute (env : Env) (st : ManagerState) (documents : List Document)
    (query model strategy context_id : String) : GetOut × ManagerState :=
  let result := optimize_for_llm env documents query model strategy none
  let cached_context : CachedContext :=
    { context_id := context_id,
      query := query,
      documents_hash := hash_documents documents,
      optimized_context := result.optimized_context,
      token_count := result.total_tokens,
      model := model,
      strategy := result.strategy_used,
      created_at := env.now,
      last_used := env.now,
      usage_count := 1,
      metadata := metaExtend result.metadata
        [("compression_ratio", MetaVal.q result.compression_rate),
         ("cost_estimate", MetaVal.q result.cost_estimate),
         ("chunks_included", MetaVal.q result.chunks_included),
         ("processing_time", MetaVal.q 0)] }
  (GetOut.ok result false, add_to_cache env.now st cached_context)

/-- `ContextManager.get_optimized_context`. -/
def get_optimized_context (env : Env) (st : ManagerState)
    (documents : List Document) (query model strategy : String)
    (force_refresh : Bool) : GetOut × ManagerState :=
  let context_id := generate_context_id documents query model strategy
  let looked : Option CachedContext × ManagerState :=
    if force_refresh then (none, st) else get_from_cache st context_id env.now
  match looked with
  | (some cached, st1) =>
    let st2 := bumpUsage
      { st1 with
        stats_hits := st1.stats_hits + 1
        stats_tokens_saved := st1.stats_tokens_saved + cached.token_count }
      context_id env.now
    (GetOut.ok (resultFromCache cached env.now) true, st2)
  | (none, st1) =>
    let st2 := { st1 with stats_misses := st1.stats_misses + 1 }
    match find_similar_context st2 query model documents, force_refresh with
    | some similar, false =>
      (GetOut.nested (adapt_similar_context env similar query) true, st2)
    | some _, true => missCompute env st2 documents query model strategy context_id
    | none, _ => missCompute env st2 documents query model strategy context_id

/-! ## Concrete fixtures for closed evaluations

The environment used for closed runs: the token counter is code-point
length (a concrete stand-in for the external tiktoken encoder — every
closed statement below holds for structural reasons that do not depend on
which tokenizer is plugged in), the LLM manager is present but every
generation call errors, the regex splitters return no matches (they are
never reached: all fixture documents route to the paragraph splitter), and
the clock reads 0. -/

def envBase : Env :=
  { countTokens := String.length, hasLLM := true, generate := fun _ _ => none,
    qaSplitExt := fun _ => [], legalSplitExt := fun _ => [], now := 0 }

def metaNone : DocMeta :=
  { type := none, date := none, filename := none, docId := none, pageNumber := none }

def repChar (n : Nat) (c : Char) : String := String.mk (List.replicate n c)

def docHi : Document := { content := "hi", meta := metaNone }
def docA50 : Document := { content := repChar 50 'a', meta := metaNone }
def docA10 : Document := { content := repChar 10 'a', meta := metaNone }

/-- Shape inspectors for `get_optimized_context` return values. -/
def getOutMeta : GetOut → Option MetaDict
  | GetOut.ok r _ => some r.metadata
  | GetOut.nested _ _ => none

def getOutFlag : GetOut → Option Bool
  | GetOut.ok _ flag => some flag
  | GetOut.nested _ _ => none

def nestedParts : GetOut → Option (OptimizationResult × Bool × Bool)
  | GetOut.nested p outer => some (p.1, p.2, outer)
  | GetOut.ok _ _ => none

def getOutStrategy : GetOut → Option String
  | GetOut.ok r _ => some r.strategy_used
  | GetOut.nested _ _ => none

/-- Two cold-then-warm runs with identical arguments (for C3). -/
def c3run1 : GetOut × ManagerState :=
  get_optimized_context envBase emptyManagerState [docHi] "q" "M" "auto" false
def c3run2 : GetOut × ManagerState :=
  get_optimized_context envBase c3run1.2 [docHi] "q" "M" "auto" false

/-- A cold run followed by a run whose query has token-Jaccard similarity
exactly 9/10 with the cached one (for C5). -/
def c5q1 : String := "a b c d e f g h i"
def c5q2 : String := "a b c d e f g h i j"
def c5run1 : GetOut × ManagerState :=
  get_optimized_context envBase emptyManagerState [docHi] c5q1 "M" "auto" false
def c5run2 : GetOut × ManagerState :=
  get_optimized_context envBase c5run1.2 [docHi] c5q2 "M" "auto" false

/-- A cold run followed by a case-only restatement of the query, and by a
word-order-only restatement (for C10).  The case-only repeat lowercases to
the same fingerprint (exact hit); the reordered repeat gets a different
fingerprint, misses, and is served by the similarity path. -/
def c10run1 : GetOut × ManagerState :=
  get_optimized_context envBase emptyManagerState [docHi] "Alpha Beta" "M" "auto" false
def c10run2 : GetOut × ManagerState :=
  get_optimized_context envBase c10run1.2 [docHi] "alpha beta" "M" "auto" false
def c10run3 : GetOut × ManagerState :=
  get_optimized_context envBase c10run1.2 [docHi] "beta alpha" "M" "auto" false

/-- Documents with equal (absent) filename sort keys but different
contents (for the C4 counterexample). -/
def docX : Document := { content := "x", meta := metaNone }
def docY : Document := { content := "y", meta := metaNone }

/-- Documents with distinct filename sort keys (for the C4 witness). -/
def docFa : Document := { content := "x", meta := { metaNone with filename := some "a" } }
def docFb : Document := { content := "y", meta := { metaNone with filename := some "b" } }

/-- Two documents differing only in identity metadata, and one document
producing two chunks with identical text at positions 0 and 1 (for C6).
The type routes to `_split_by_qa`; its content has no Q/A markers, so the
regex pass finds nothing and the code falls back to paragraph splitting,
yielding the two identical sections. -/
def c6meta1 : DocMeta :=
  { metaNone with type := some "audition", filename := some "f1", docId := some "d1" }
def c6meta2 : DocMeta :=
  { metaNone with type := some "audition", filename := some "f2", docId := some "d2" }
def c6content : String := "abc\n\nabc"

/-- A chunk whose document is dated 3650 days in the future of
`envBase.now = 0` (for the C7 counterexample). -/
def c7chunk : DocumentChunk :=
  mkChunk ""
    { doc := { metaNone with date := some 315360000 }, chunk_index := 0,
      chunk_type := "general" } 0

/-- A 600-character content for the C8 counterexample. -/
def a600 : String := repChar 600 'a'

/-- The `CachedContext` stored by a cold-cache run of
`get_optimized_context` (the `cached_context` built in `missCompute`). -/
def coldCtx (env : Env) (documents : List Document)
    (query model strategy : String) : CachedContext :=
  let result := optimize_for_llm env documents query model strategy none
  { context_id := generate_context_id documents query model strategy,
    query := query,
    documents_hash := hash_documents documents,
    optimized_context := result.optimized_context,
    token_count := result.total_tokens,
    model := model,
    strategy := result.strategy_used,
    created_at := env.now,
    last_used := env.now,
    usage_count := 1,
    metadata := metaExtend result.metadata
      [("compression_ratio", MetaVal.q result.compression_rate),
       ("cost_estimate", MetaVal.q result.cost_estimate),
       ("chunks_included", MetaVal.q result.chunks_included),
       ("processing_time", MetaVal.q 0)] }

/-- The manager state left behind by one run from the empty state. -/
def coldState (env : Env) (documents : List Document)
    (query model strategy : String) : ManagerState :=
  { memory_cache := [(generate_context_id documents query model strategy,
      coldCtx env documents query model strategy)],
    persistent_cache := [(generate_context_id documents query model strategy,
      coldCtx env documents query model strategy)],
    stats_hits := 0, stats_misses := 1, stats_tokens_saved := 0 }

/-! ## Helper lemmas: dicts -/

theorem pyDictGet_set_self (d : List (String × α)) (k : String) (v : α) :
    pyDictGet (pyDictSet d k v) k = some v := by
  induction d with
  | nil => simp [pyDictSet, pyDictGet]
  | cons p rest ih =>
    obtain ⟨k2, v2⟩ := p
    by_cases h : k2 = k
    · simp [pyDictSet, pyDictGet, h]
    · simp [pyDictSet, pyDictGet, h, ih]

theorem pyDictGet_set_ne (d : List (String × α)) (k2 k : String) (v : α)
    (h : k2 ≠ k) : pyDictGet (pyDictSet d k2 v) k = pyDictGet d k := by
  induction d with
  | nil => simp [pyDictSet, pyDictGet, h]
  | cons p rest ih =>
    obtain ⟨k3, v3⟩ := p
    simp only [pyDictSet]
    by_cases h3 : k3 = k2
    · subst h3
      simp [pyDictGet, h]
    · rw [if_neg h3]
      by_cases h4 : k3 = k
      · simp [pyDictGet, h4]
      · simp [pyDictGet, h4, ih]

theorem metaGetQ_set_q_self (d : MetaDict) (k : String) (x : ℚ) (dflt : ℚ) :
    metaGetQ (pyDictSet d k (MetaVal.q x)) k dflt = x := by
  simp [metaGetQ, pyDictGet_set_self]

theorem metaGetQ_set_ne (d : MetaDict) (k2 k : String) (v : MetaVal) (dflt : ℚ)
    (h : k2 ≠ k) : metaGetQ (pyDictSet d k2 v) k dflt = metaGetQ d k dflt := by
  simp [metaGetQ, pyDictGet_set_ne _ _ _ _ h]

/-! ## Helper lemmas: the stable sort -/

theorem mem_pyInsertSorted (ltB : α → α → Bool) (x a : α) (l : List α) :
    a ∈ pyInsertSorted ltB x l ↔ a = x ∨ a ∈ l := by
  induction l with
  | nil => simp [pyInsertSorted]
  | cons y ys ih =>
    by_cases h : ltB y x = true <;> · simp [pyInsertSorted, h, ih]; try tauto

theorem perm_pyInsertSorted (ltB : α → α → Bool) (x : α) (l : List α) :
    (pyInsertSorted ltB x l).Perm (x :: l) := by
  induction l with
  | nil => exact List.Perm.refl _
  | cons y ys ih =>
    by_cases h : ltB y x = true
    · simp only [pyInsertSorted, h, if_pos]
      exact (ih.cons y).trans (List.Perm.swap x y ys)
    · simp [pyInsertSorted, h]

theorem perm_pyStableSortBy (leB : α → α → Bool) (l : List α) :
    (pyStableSortBy leB l).Perm l := by
  induction l with
  | nil => exact List.Perm.refl _
  | cons x xs ih =>
    have : pyStableSortBy leB (x :: xs) =
        pyInsertSorted (fun y z => leB y z && !leB z y) x (pyStableSortBy leB xs) := rfl
    rw [this]
    exact (perm_pyInsertSorted _ x _).trans (ih.cons x)

theorem mem_pyStableSortBy (leB : α → α → Bool) (l : List α) (a : α) :
    a ∈ pyStableSortBy leB l ↔ a ∈ l :=
  (perm_pyStableSortBy leB l).mem_iff

theorem pyInsertSorted_sorted (leB : α → α → Bool)
    (htot : ∀ a b, leB a b = true ∨ leB b a = true)
    (htr : ∀ a b c, leB a b = true → leB b c = true → leB a c = true)
    (x : α) (l : List α) (hl : l.Pairwise (fun a b => leB a b = true)) :
    (pyInsertSorted (fun y z => leB y z && !leB z y) x l).Pairwise
      (fun a b => leB a b = true) := by
  induction l with
  | nil => simp [pyInsertSorted]
  | cons y ys ih =>
    rw [List.pairwise_cons] at hl
    have thenCase : ∀ hyx : leB y x = true, (leB y x && !leB x y) = true →
        (pyInsertSorted (fun y z => leB y z && !leB z y) x (y :: ys)).Pairwise
          (fun a b => leB a b = true) := by
      intro hyx hcond
      simp only [pyInsertSorted, hcond, if_pos]
      rw [List.pairwise_cons]
      constructor
      · intro z hz
        rcases (mem_pyInsertSorted _ x z ys).mp hz with rfl | hz2
        · exact hyx
        · exact hl.1 z hz2
      · exact ih hl.2
    have elseCase : ∀ hxy : leB x y = true, (leB y x && !leB x y) = false →
        (pyInsertSorted (fun y z => leB y z && !leB z y) x (y :: ys)).Pairwise
          (fun a b => leB a b = true) := by
      intro hxy hcond
      simp only [pyInsertSorted, hcond, Bool.false_eq_true, if_false]
      rw [List.pairwise_cons]
      refine ⟨?_, List.pairwise_cons.mpr hl⟩
      intro z hz
      rcases List.mem_cons.mp hz with rfl | hz2
      · exact hxy
      · exact htr x y z hxy (hl.1 z hz2)
    by_cases hyx : leB y x = true
    · by_cases hxy : leB x y = true
      · exact elseCase hxy (by simp [hyx, hxy])
      · exact thenCase hyx (by simp [hyx, hxy])
    · have hxy : leB x y = true := by
        rcases htot x y with h5 | h5
        · exact h5
        · exact absurd h5 hyx
      exact elseCase hxy (by simp [hyx])

theorem pyStableSortBy_sorted (leB : α → α → Bool)
    (htot : ∀ a b, leB a b = true ∨ leB b a = true)
    (htr : ∀ a b c, leB a b = true → leB b c = true → leB a c = true)
    (l : List α) :
    (pyStableSortBy leB l).Pairwise (fun a b => leB a b = true) := by
  induction l with
  | nil => simp [pyStableSortBy]
  | cons x xs ih =>
    have : pyStableSortBy leB (x :: xs) =
        pyInsertSorted (fun y z => leB y z && !leB z y) x (pyStableSortBy leB xs) := rfl
    rw [this]
    exact pyInsertSorted_sorted leB htot htr x _ ih

/-! ## Helper lemmas: the Python string order -/

theorem charToNat_inj {a b : Char} (h : a.toNat = b.toNat) : a = b :=
  Char.eq_of_val_eq (UInt32.ext h)

theorem charsLe_total : ∀ a b : List Char, charsLe a b = true ∨ charsLe b a = true := by
  intro a
  induction a with
  | nil => intro b; left; rfl
  | cons x xs ih =>
    intro b
    cases b with
    | nil => right; rfl
    | cons y ys =>
      by_cases h1 : x.toNat < y.toNat
      · left; simp [charsLe, h1]
      · by_cases h2 : y.toNat < x.toNat
        · right; simp [charsLe, h1, h2]
        · rcases ih ys with h | h
          · left; simp [charsLe, h1, h2, h]
          · right; simp [charsLe, h1, h2, h]

theorem charsLe_antisymm : ∀ a b : List Char,
    charsLe a b = true → charsLe b a = true → a = b := by
  intro a
  induction a with
  | nil =>
    intro b _ hba
    cases b with
    | nil => rfl
    | cons y ys => exact absurd hba (by simp [charsLe])
  | cons x xs ih =>
    intro b hab hba
    cases b with
    | nil => exact absurd hab (by simp [charsLe])
    | cons y ys =>
      by_cases h1 : x.toNat < y.toNat
      · exact absurd hba (by simp [charsLe, h1, Nat.lt_asymm h1])
      · by_cases h2 : y.toNat < x.toNat
        · exact absurd hab (by simp [charsLe, h1, h2])
        · have hx : x = y := charToNat_inj (Nat.le_antisymm (Nat.not_lt.mp h2) (Nat.not_lt.mp h1))
          subst hx
          have hab2 : charsLe xs ys = true := by
            simpa [charsLe, h1] using hab
          have hba2 : charsLe ys xs = true := by
            simpa [charsLe, h1] using hba
          rw [ih ys hab2 hba2]

theorem charsLe_trans : ∀ a b c : List Char,
    charsLe a b = true → charsLe b c = true → charsLe a c = true := by
  intro a
  induction a with
  | nil => intro b c _ _; rfl
  | cons x xs ih =>
    intro b c hab hbc
    cases b with
    | nil => exact absurd hab (by simp [charsLe])
    | cons y ys =>
      cases c with
      | nil => exact absurd hbc (by simp [charsLe])
      | cons z zs =>
        by_cases h1 : x.toNat < y.toNat <;> by_cases h2 : y.toNat < z.toNat
        · simp [charsLe, Nat.lt_trans h1 h2]
        · by_cases h3 : z.toNat < y.toNat
          · exact absurd hbc (by simp [charsLe, h2, h3])
          · have : y.toNat = z.toNat := Nat.le_antisymm (Nat.not_lt.mp h3) (Nat.not_lt.mp h2)
            simp [charsLe, this ▸ h1]
        · by_cases h0 : y.toNat < x.toNat
          · exact absurd hab (by simp [charsLe, h1, h0])
          · have hxy : x.toNat = y.toNat := Nat.le_antisymm (Nat.not_lt.mp h0) (Nat.not_lt.mp h1)
            simp [charsLe, hxy ▸ h2]
        · by_cases h0 : y.toNat < x.toNat
          · exact absurd hab (by simp [charsLe, h1, h0])
          · by_cases h3 : z.toNat < y.toNat
            · exact absurd hbc (by simp [charsLe, h2, h3])
            · have hxy : x.toNat = y.toNat := Nat.le_antisymm (Nat.not_lt.mp h0) (Nat.not_lt.mp h1)
              have hyz : y.toNat = z.toNat := Nat.le_antisymm (Nat.not_lt.mp h3) (Nat.not_lt.mp h2)
              have hab2 : charsLe xs ys = true := by simpa [charsLe, h1, h0] using hab
              have hbc2 : charsLe ys zs = true := by simpa [charsLe, h2, h3] using hbc
              have hxz : ¬ x.toNat < z.toNat := by omega
              have hzx : ¬ z.toNat < x.toNat := by omega
              simp [charsLe, hxz, hzx, ih ys zs hab2 hbc2]

theorem pyStrLe_total (s t : String) : pyStrLe s t = true ∨ pyStrLe t s = true :=
  charsLe_total s.data t.data

theorem pyStrLe_trans (s t u : String) (h1 : pyStrLe s t = true)
    (h2 : pyStrLe t u = true) : pyStrLe s u = true :=
  charsLe_trans s.data t.data u.data h1 h2

theorem pyStrLe_antisymm (s t : String) (h1 : pyStrLe s t = true)
    (h2 : pyStrLe t s = true) : s = t := by
  cases s with
  | mk ds =>
    cases t with
    | mk dt => exact congrArg String.mk (charsLe_antisymm ds dt h1 h2)

/-- Two sorted lists that are permutations of each other and whose sort keys
are pairwise distinct are equal (uniqueness of the sorted order). -/
theorem eq_of_perm_sorted_nodup_keys (f : α → String) :
    ∀ (l1 l2 : List α), l1.Perm l2 →
      l1.Pairwise (fun a b => pyStrLe (f a) (f b) = true) →
      l2.Pairwise (fun a b => pyStrLe (f a) (f b) = true) →
      (l1.map f).Nodup → l1 = l2 := by
  intro l1
  induction l1 with
  | nil =>
    intro l2 hp _ _ _
    exact (hp.nil_eq).symm ▸ rfl
  | cons a t1 ih =>
    intro l2 hp h1 h2 hn
    cases l2 with
    | nil => exact absurd hp.symm.nil_eq (by simp)
    | cons b t2 =>
      have hab : a = b := by
        have haIn : a ∈ b :: t2 := hp.mem_iff.mp (List.mem_cons_self a t1)
        have hbIn : b ∈ a :: t1 := hp.symm.mem_iff.mp (List.mem_cons_self b t2)
        rcases List.mem_cons.mp haIn with h | haT2
        · exact h
        rcases List.mem_cons.mp hbIn with h | hbT1
        · exact h.symm
        have hba : pyStrLe (f b) (f a) = true :=
          (List.pairwise_cons.mp h2).1 a haT2
        have hab2 : pyStrLe (f a) (f b) = true :=
          (List.pairwise_cons.mp h1).1 b hbT1
        have hfeq : f a = f b := pyStrLe_antisymm _ _ hab2 hba
        have hmem : f b ∈ t1.map f := List.mem_map.mpr ⟨b, hbT1, rfl⟩
        rw [List.map_cons, List.nodup_cons] at hn
        exact absurd (hfeq ▸ hmem) hn.1
      subst hab
      rw [List.map_cons, List.nodup_cons] at hn
      have ht : t1 = t2 :=
        ih t2 hp.cons_inv (List.pairwise_cons.mp h1).2 (List.pairwise_cons.mp h2).2 hn.2
      rw [ht]

/-! ## Helper lemmas: the greedy chunk selection -/

theorem smartSelect_step_le (env : Env) (query : String) (max_tokens : Nat)
    (acc : List DocumentChunk × Nat) (c : DocumentChunk)
    (h : acc.2 ≤ max_tokens) :
    (smartSelectStep env query max_tokens acc c).2 ≤ max_tokens := by
  simp only [smartSelectStep]
  by_cases h1 : acc.2 + c.token_count ≤ max_tokens
  · simp only [if_pos h1]
    exact h1
  · rw [if_neg h1]
    by_cases h2 : acc.2 + 100 < max_tokens
    · rw [if_pos h2]
      by_cases h3 : env.countTokens
          (generate_summary env c.content 1 query (max_tokens - acc.2)) + acc.2 ≤
          max_tokens
      · rw [if_pos h3]
        omega
      · rw [if_neg h3]
        exact h
    · rw [if_neg h2]
      exact h

theorem smartSelect_le (env : Env) (query : String) (max_tokens : Nat) :
    ∀ (l : List DocumentChunk) (acc : List DocumentChunk × Nat),
      acc.2 ≤ max_tokens →
      (l.foldl (smartSelectStep env query max_tokens) acc).2 ≤ max_tokens := by
  intro l
  induction l with
  | nil => intro acc h; exact h
  | cons c t ih =>
    intro acc h
    rw [List.foldl_cons]
    exact ih _ (smartSelect_step_le env query max_tokens acc c h)

theorem smartSelect_skip (env : Env) (query : String) (max_tokens : Nat)
    (h100 : max_tokens ≤ 100) :
    ∀ (l : List DocumentChunk) (sel : List DocumentChunk),
      (∀ c ∈ l, max_tokens < c.token_count) →
      l.foldl (smartSelectStep env query max_tokens) (sel, 0) = (sel, 0) := by
  intro l
  induction l with
  | nil => intro sel _; rfl
  | cons c t ih =>
    intro sel hbig
    have hc := hbig c (List.mem_cons_self c t)
    have hstep : smartSelectStep env query max_tokens (sel, 0) c = (sel, 0) := by
      simp only [smartSelectStep]
      rw [if_neg (by omega), if_neg (by omega)]
    rw [List.foldl_cons, hstep]
    exact ih sel (fun d hd => hbig d (List.mem_cons_of_mem c hd))

theorem score_chunk_token_count (env : Env) (query : String) (c : DocumentChunk) :
    (score_chunk env query c).token_count = c.token_count := rfl

theorem pyTake_length_le (s : String) (n : Nat) : (pyTake s n).length ≤ n := by
  have : (pyTake s n).length = (s.data.take n).length := rfl
  rw [this, List.length_take]
  exact min_le_left _ _

/-! ## Helper lemmas: the cold-run / warm-hit trace of the cache -/

theorem pyDictGet_cons_self (k : String) (v : α) (d : List (String × α)) :
    pyDictGet ((k, v) :: d) k = some v := by
  simp [pyDictGet]

theorem cachedIsValid_fresh (c : CachedContext) (now : Int)
    (h : c.created_at = now) : cachedIsValid c now = true := by
  simp only [cachedIsValid, h]
  exact decide_eq_true (by omega)

theorem cleanupCache_small (now : Int) (p : List (String × CachedContext))
    (hfresh : ∀ kv ∈ p, kv.2.created_at = now) (hlen : p.length ≤ 1) :
    cleanupCache now p = p := by
  have hfilter : p.filter (fun kv => cachedIsValid kv.2 now) = p :=
    List.filter_eq_self.mpr (fun kv hkv => cachedIsValid_fresh _ _ (hfresh kv hkv))
  simp only [cleanupCache, hfilter]
  split
  · rcases p with _ | ⟨kv, _ | ⟨kv2, rest⟩⟩
    · rfl
    · norm_num [pyStableSortBy, pyInsertSorted]
    · simp at hlen
  · rfl

theorem save_fresh (now : Int) (st : ManagerState)
    (hfresh : ∀ kv ∈ st.persistent_cache, kv.2.created_at = now)
    (hlen : st.persistent_cache.length ≤ 1) :
    save_persistent_cache now st = st := by
  simp only [save_persistent_cache]
  split
  · rw [cleanupCache_small now _ hfresh hlen]
  · rfl

theorem cold_run (env : Env) (documents : List Document)
    (query model strategy : String) :
    get_optimized_context env emptyManagerState documents query model strategy false =
      (GetOut.ok (optimize_for_llm env documents query model strategy none) false,
       coldState env documents query model strategy) := by
  have h0 : get_optimized_context env emptyManagerState documents query model strategy false =
      (GetOut.ok (optimize_for_llm env documents query model strategy none) false,
       save_persistent_cache env.now (coldState env documents query model strategy)) := rfl
  have h1 : ∀ kv ∈ (coldState env documents query model strategy).persistent_cache,
      kv.2.created_at = env.now := by
    intro kv hkv
    simp only [coldState, List.mem_singleton] at hkv
    subst hkv
    rfl
  have h2 : (coldState env documents query model strategy).persistent_cache.length ≤ 1 := by
    simp [coldState]
  rw [h0, save_fresh env.now _ h1 h2]


theorem warm_fst (env1 env2 : Env) (documents : List Document)
    (query model strategy : String) (httl : env2.now - env1.now < 86400) :
    (get_optimized_context env2 (coldState env1 documents query model strategy)
        documents query model strategy false).1 =
      GetOut.ok (resultFromCache (coldCtx env1 documents query model strategy)
        env2.now) true := by
  have hv : cachedIsValid (coldCtx env1 documents query model strategy) env2.now = true := by
    simp only [cachedIsValid,
      show (coldCtx env1 documents query model strategy).created_at = env1.now from rfl]
    exact decide_eq_true httl
  have hget : get_from_cache (coldState env1 documents query model strategy)
      (generate_context_id documents query model strategy) env2.now =
      (some (coldCtx env1 documents query model strategy),
       coldState env1 documents query model strategy) := by
    simp only [get_from_cache,
      show (coldState env1 documents query model strategy).memory_cache =
        [(generate_context_id documents query model strategy,
          coldCtx env1 documents query model strategy)] from rfl,
      pyDictGet_cons_self, hv]
    simp
  simp only [get_optimized_context, Bool.false_eq_true, if_false, hget]

theorem resultFromCache_coldCtx (env : Env) (documents : List Document)
    (query model strategy : String) (now2 : Int) :
    (resultFromCache (coldCtx env documents query model strategy) now2).chunks_included =
      (optimize_for_llm env documents query model strategy none).chunks_included ∧
    (resultFromCache (coldCtx env documents query model strategy) now2).cost_estimate =
      (optimize_for_llm env documents query model strategy none).cost_estimate ∧
    (resultFromCache (coldCtx env documents query model strategy) now2).compression_rate =
      (optimize_for_llm env documents query model strategy none).compression_rate := by
  refine ⟨?_, ?_, ?_⟩
  · show metaGetQ (metaExtend
      (optimize_for_llm env documents query model strategy none).metadata
      [("compression_ratio", MetaVal.q _), ("cost_estimate", MetaVal.q _),
       ("chunks_included", MetaVal.q _), ("processing_time", MetaVal.q 0)])
      "chunks_included" 0 = _
    simp only [metaExtend, List.foldl_cons, List.foldl_nil]
    rw [metaGetQ_set_ne _ _ _ _ _ (by with_unfolding_all decide), metaGetQ_set_q_self]
  · show metaGetQ (metaExtend
      (optimize_for_llm env documents query model strategy none).metadata
      [("compression_ratio", MetaVal.q _), ("cost_estimate", MetaVal.q _),
       ("chunks_included", MetaVal.q _), ("processing_time", MetaVal.q 0)])
      "cost_estimate" 0 = _
    simp only [metaExtend, List.foldl_cons, List.foldl_nil]
    rw [metaGetQ_set_ne _ _ _ _ _ (by with_unfolding_all decide),
      metaGetQ_set_ne _ _ _ _ _ (by with_unfolding_all decide), metaGetQ_set_q_self]
  · show metaGetQ (metaExtend
      (optimize_for_llm env documents query model strategy none).metadata
      [("compression_ratio", MetaVal.q _), ("cost_estimate", MetaVal.q _),
       ("chunks_included", MetaVal.q _), ("processing_time", MetaVal.q 0)])
      "compression_ratio" 1 = _
    simp only [metaExtend, List.foldl_cons, List.foldl_nil]
    rw [metaGetQ_set_ne _ _ _ _ _ (by with_unfolding_all decide),
      metaGetQ_set_ne _ _ _ _ _ (by with_unfolding_all decide),
      metaGetQ_set_ne _ _ _ _ _ (by with_unfolding_all decide), metaGetQ_set_q_self]

/-! ## Helper lemmas: query similarity and chunk scoring -/

theorem calcSim_symm (q1 q2 : String) :
    calculate_query_similarity q1 q2 = calculate_query_similarity q2 q1 := by
  simp only [calculate_query_similarity]
  by_cases h1 : tokSet q1 = ∅ <;> by_cases h2 : tokSet q2 = ∅
  · simp [h1, h2]
  · simp [h1, h2]
  · simp [h1, h2]
  · rw [if_neg (not_or.mpr ⟨h1, h2⟩), if_neg (not_or.mpr ⟨h2, h1⟩)]
    rw [Finset.inter_comm (tokSet q1) (tokSet q2),
      Finset.union_comm (tokSet q1) (tokSet q2)]

theorem calcSim_bounds (q1 q2 : String) :
    0 ≤ calculate_query_similarity q1 q2 ∧ calculate_query_similarity q1 q2 ≤ 1 := by
  simp only [calculate_query_similarity]
  split
  · norm_num
  · constructor
    · have ha : (0 : ℚ) ≤ ((tokSet q1 ∩ tokSet q2).card : ℚ) / ((tokSet q1 ∪ tokSet q2).card : ℚ) :=
        div_nonneg (Nat.cast_nonneg _) (Nat.cast_nonneg _)
      have hb : (0 : ℚ) ≤ ((tokSet q1 ∩ tokSet q2 ∩ important_words).card : ℚ) * (1/10) := by
        positivity
      exact le_min (by norm_num) (by linarith)
    · exact min_le_left _ _

theorem calcSim_empty (q1 q2 : String) (h : tokSet q1 = ∅ ∨ tokSet q2 = ∅) :
    calculate_query_similarity q1 q2 = 0 := by
  simp only [calculate_query_similarity]
  rw [if_pos h]

theorem calcSim_eq_one (q1 q2 : String) (heq : tokSet q1 = tokSet q2)
    (hne : tokSet q1 ≠ ∅) : calculate_query_similarity q1 q2 = 1 := by
  simp only [calculate_query_similarity]
  rw [if_neg (not_or.mpr ⟨hne, heq ▸ hne⟩), ← heq, Finset.inter_self, Finset.union_self]
  have h0 : (tokSet q1).card ≠ 0 :=
    Nat.pos_iff_ne_zero.mp (Finset.card_pos.mpr (Finset.nonempty_iff_ne_empty.mpr hne))
  rw [div_self (Nat.cast_ne_zero.mpr h0)]
  have hb : (0 : ℚ) ≤ ((tokSet q1 ∩ important_words).card : ℚ) * (1/10) := by positivity
  rw [min_eq_left (by linarith)]

theorem typeScore_bounds (t : String) :
    1/2 ≤ (pyDictGet doc_type_scores t).getD (1/2) ∧
      (pyDictGet doc_type_scores t).getD (1/2) ≤ 9/10 := by
  simp only [doc_type_scores, pyDictGet]
  split_ifs <;> simp <;> norm_num

/-! ## Helper lemmas: the optimizer's budget behaviour -/

theorem smart_chunking_total_le (env : Env) (documents : List Document)
    (query target_model : String) (max_tokens : Nat) :
    (smart_chunking env documents query target_model max_tokens).total_tokens ≤
      max_tokens := by
  simp only [smart_chunking]
  exact smartSelect_le env query max_tokens _ ([], 0) (Nat.zero_le _)

theorem hier_total_le (env : Env) (documents : List Document)
    (query target_model : String) (max_tokens : Nat)
    (h : (hierarchical_summarization env documents query target_model
      max_tokens).strategy_used ≠ "hierarchical_level2") :
    (hierarchical_summarization env documents query target_model
      max_tokens).total_tokens ≤ max_tokens := by
  revert h
  simp only [hierarchical_summarization]
  split_ifs with hc
  · intro _
    exact hc
  · intro h
    exact absurd rfl h

theorem optimize_metadata_keys (env : Env) (documents : List Document)
    (query target_model strategy : String) (max_tokens : Option Nat) :
    ((optimize_for_llm env documents query target_model strategy
        max_tokens).metadata).map Prod.fst ⊆
      ["processing_time", "summary_levels", "excerpts_included", "total_chunks",
       "selected_chunks", "avg_relevance_score"] := by
  simp only [optimize_for_llm, hierarchical_summarization, smart_chunking]
  split_ifs <;> simp

/-! ## Claim C1 -/

/-- C1 (counterexample): the claim says every strategy path, including
`hierarchical_level2`, yields `total_tokens ≤ max_tokens`.  At this concrete
input (one 50-character document, budget 10, strategy `hierarchical`, the
generation collaborator failing) the call returns strategy
`hierarchical_level2` with `total_tokens` above the budget: the level-2
branch concatenates fixed headers and an unguarded level-2 summary, with no
final budget check. -/
theorem c1_level2_exceeds_budget :
    (optimize_for_llm envBase [docA50] "zz" "M" "hierarchical" (some 10)).strategy_used =
      "hierarchical_level2" ∧
    10 < (optimize_for_llm envBase [docA50] "zz" "M" "hierarchical" (some 10)).total_tokens := by
  with_unfolding_all decide

/-- C1 (amended): for every call with an explicit budget, every result whose
strategy is not `hierarchical_level2` — i.e. the `none`,
`hierarchical_level1` and `smart_chunking` paths — satisfies
`total_tokens ≤ max_tokens`; the `hierarchical_level2` path has no such
guarantee. -/
theorem c1_budget_invariant_amended (env : Env) (documents : List Document)
    (query target_model strategy : String) (maxT : Nat)
    (hstrat : (optimize_for_llm env documents query target_model strategy
      (some maxT)).strategy_used ≠ "hierarchical_level2") :
    (optimize_for_llm env documents query target_model strategy
      (some maxT)).total_tokens ≤ maxT := by
  revert hstrat
  simp only [optimize_for_llm]
  split_ifs <;> intro hstrat <;>
    first
      | assumption
      | exact hier_total_le env documents query target_model maxT hstrat
      | exact smart_chunking_total_le env documents query target_model maxT

/-- C1 (witness): a concrete instantiation of the amended budget invariant. -/
theorem c1_budget_invariant_amended_witness :
    ((optimize_for_llm envBase [docHi] "q" "M" "auto" (some 5)).strategy_used ≠
      "hierarchical_level2") ∧
    (optimize_for_llm envBase [docHi] "q" "M" "auto" (some 5)).total_tokens ≤ 5 :=
  ⟨by with_unfolding_all decide,
   c1_budget_invariant_amended envBase [docHi] "q" "M" "auto" 5
     (by with_unfolding_all decide)⟩

/-! ## Claim C2 -/

/-- C2 (counterexample): the claim says that when even the minimal fallback
exceeds the budget the call surfaces a `BudgetTooSmall` failure instead of
returning a result.  The embedded `optimize_for_llm` is a total function
with no failure variant, mirroring the source, which defines no error type
at all.  At this concrete input (a 10-token document, budget 5 — so even the
single chunk exceeds the budget and the summarize-to-fit branch is
unreachable, since it requires `current + 100 < max_tokens`), the call
returns an ordinary result with zero chunks instead of any failure. -/
theorem c2_no_failure_surfaced :
    (optimize_for_llm envBase [docA10] "q" "M" "smart_chunking" (some 5)).strategy_used =
      "smart_chunking" ∧
    (optimize_for_llm envBase [docA10] "q" "M" "smart_chunking" (some 5)).chunks_included = 0 ∧
    (optimize_for_llm envBase [docA10] "q" "M" "smart_chunking" (some 5)).total_tokens = 0 := by
  with_unfolding_all decide

/-- C2 (amended): assembly never fails.  When the budget is at most 100
(so the overflow-summarize branch is unreachable) and every chunk exceeds
the budget, `_smart_chunking` degrades to an ordinary result with zero
selected chunks and `total_tokens = 0` rather than reporting anything. -/
theorem c2_degrade_amended (env : Env) (documents : List Document)
    (query target_model : String) (maxT : Nat) (h100 : maxT ≤ 100)
    (hbig : ∀ c ∈ documents.flatMap
      (fun d => create_smart_chunks env d.content d.meta), maxT < c.token_count) :
    (smart_chunking env documents query target_model maxT).total_tokens = 0 ∧
    (smart_chunking env documents query target_model maxT).chunks_included = 0 ∧
    (smart_chunking env documents query target_model maxT).strategy_used =
      "smart_chunking" := by
  have hsorted : ∀ c ∈ pyStableSortBy
      (fun a b => decide (b.relevance_score ≤ a.relevance_score))
      (score_chunks env (documents.flatMap
        (fun d => create_smart_chunks env d.content d.meta)) query),
      maxT < c.token_count := by
    intro c hc
    rw [mem_pyStableSortBy] at hc
    simp only [score_chunks, List.mem_map] at hc
    obtain ⟨c0, hc0, rfl⟩ := hc
    rw [score_chunk_token_count]
    exact hbig c0 hc0
  have hfold := smartSelect_skip env query maxT h100 _ [] hsorted
  refine ⟨?_, ?_, rfl⟩
  · show (List.foldl (smartSelectStep env query maxT) ([], 0) _).2 = 0
    rw [hfold]
  · show ((List.foldl (smartSelectStep env query maxT) ([], 0) _).1.length : ℚ) = 0
    rw [hfold]
    simp

/-- C2 (witness): a concrete instantiation of the amended degradation. -/
theorem c2_degrade_amended_witness :
    (5 ≤ 100) ∧
    (∀ c ∈ [docA10].flatMap
      (fun d => create_smart_chunks envBase d.content d.meta), 5 < c.token_count) ∧
    (smart_chunking envBase [docA10] "q" "M" 5).total_tokens = 0 ∧
    (smart_chunking envBase [docA10] "q" "M" 5).chunks_included = 0 ∧
    (smart_chunking envBase [docA10] "q" "M" 5).strategy_used = "smart_chunking" := by
  refine ⟨by norm_num, by with_unfolding_all decide, ?_⟩
  exact c2_degrade_amended envBase [docA10] "q" "M" 5 (by norm_num)
    (by with_unfolding_all decide)

/-! ## Claim C3 -/

/-- C3 (counterexample): the claim says the second identical call is
byte-identical to the first.  In this concrete cold-then-warm trace the
second call does return `from_cache = true`, but its result is not
byte-identical: the first result's metadata is empty while the second
acquires the cache-bookkeeping keys (`from_cache`, `cache_age_hours`, plus
the stored `compression_ratio`/`cost_estimate`/`chunks_included`/
`processing_time`). -/
theorem c3_not_byte_identical :
    getOutFlag c3run1.1 = some false ∧ getOutFlag c3run2.1 = some true ∧
    getOutMeta c3run1.1 = some [] ∧ getOutMeta c3run2.1 ≠ some [] := by
  with_unfolding_all decide

/-- C3 (amended): starting from the empty cache, a second call with the same
arguments within the 24h TTL returns `from_cache = true` and agrees with the
first call's result on `optimized_context`, `total_tokens`, `strategy_used`,
`chunks_included`, `cost_estimate` and `compression_ratio`; only the
metadata differs (see the counterexample). -/
theorem c3_cache_hit_fields_amended (env1 env2 : Env) (documents : List Document)
    (query model strategy : String) (httl : env2.now - env1.now < 86400) :
    ∃ r1 st1 r2 st2,
      get_optimized_context env1 emptyManagerState documents query model strategy false =
        (GetOut.ok r1 false, st1) ∧
      get_optimized_context env2 st1 documents query model strategy false =
        (GetOut.ok r2 true, st2) ∧
      r2.optimized_context = r1.optimized_context ∧
      r2.total_tokens = r1.total_tokens ∧
      r2.strategy_used = r1.strategy_used ∧
      r2.chunks_included = r1.chunks_included ∧
      r2.cost_estimate = r1.cost_estimate ∧
      r2.compression_rate = r1.compression_rate := by
  obtain ⟨hci, hce, hcr⟩ :=
    resultFromCache_coldCtx env1 documents query model strategy env2.now
  refine ⟨optimize_for_llm env1 documents query model strategy none,
    coldState env1 documents query model strategy,
    resultFromCache (coldCtx env1 documents query model strategy) env2.now,
    (get_optimized_context env2 (coldState env1 documents query model strategy)
      documents query model strategy false).2,
    cold_run env1 documents query model strategy, ?_, rfl, rfl, rfl, hci, hce, hcr⟩
  have h := warm_fst env1 env2 documents query model strategy httl
  calc get_optimized_context env2 (coldState env1 documents query model strategy)
        documents query model strategy false
      = ((get_optimized_context env2 (coldState env1 documents query model strategy)
          documents query model strategy false).1,
         (get_optimized_context env2 (coldState env1 documents query model strategy)
          documents query model strategy false).2) := rfl
    _ = (GetOut.ok (resultFromCache (coldCtx env1 documents query model strategy)
          env2.now) true,
         (get_optimized_context env2 (coldState env1 documents query model strategy)
          documents query model strategy false).2) := by rw [h]

/-- C3 (witness): a concrete instantiation of the amended cache-hit
agreement. -/
theorem c3_cache_hit_fields_amended_witness :
    (envBase.now - envBase.now < 86400) ∧
    (∃ r1 st1 r2 st2,
      get_optimized_context envBase emptyManagerState [docHi] "q" "M" "auto" false =
        (GetOut.ok r1 false, st1) ∧
      get_optimized_context envBase st1 [docHi] "q" "M" "auto" false =
        (GetOut.ok r2 true, st2) ∧
      r2.optimized_context = r1.optimized_context ∧
      r2.total_tokens = r1.total_tokens ∧
      r2.strategy_used = r1.strategy_used ∧
      r2.chunks_included = r1.chunks_included ∧
      r2.cost_estimate = r1.cost_estimate ∧
      r2.compression_rate = r1.compression_rate) :=
  ⟨by with_unfolding_all decide,
   c3_cache_hit_fields_amended envBase envBase [docHi] "q" "M" "auto"
     (by with_unfolding_all decide)⟩

/-! ## Claim C4 -/

/-- C4 (counterexample): the claim says the fingerprint is independent of
the order of the input documents.  `_hash_documents` sorts by
`metadata.get('filename', '')`, so two documents with no filename share the
sort key `""` and the stable sort preserves their input order; swapping two
such documents changes the fingerprint. -/
theorem c4_order_dependent :
    generate_context_id [docX, docY] "q" "M" "auto" ≠
      generate_context_id [docY, docX] "q" "M" "auto" := by
  with_unfolding_all decide

/-- C4 (amended): the fingerprint is identical across repeated calls (the
function is pure) and independent of document order whenever the documents'
filename sort keys are pairwise distinct — the sorted order of the documents
is then unique, so any permutation of the input hashes identically. -/
theorem c4_fingerprint_amended (documents documents2 : List Document)
    (query model strategy : String)
    (hperm : documents.Perm documents2)
    (hnodup : (documents.map (fun d => d.meta.filename.getD "")).Nodup) :
    generate_context_id documents query model strategy =
      generate_context_id documents2 query model strategy := by
  have hsorteq :
      pyStableSortBy (fun a b =>
        pyStrLe (a.meta.filename.getD "") (b.meta.filename.getD "")) documents =
      pyStableSortBy (fun a b =>
        pyStrLe (a.meta.filename.getD "") (b.meta.filename.getD "")) documents2 := by
    apply eq_of_perm_sorted_nodup_keys (fun d => d.meta.filename.getD "")
    · exact ((perm_pyStableSortBy _ documents).trans hperm).trans
        (perm_pyStableSortBy _ documents2).symm
    · exact pyStableSortBy_sorted
        (fun a b : Document =>
          pyStrLe (a.meta.filename.getD "") (b.meta.filename.getD ""))
        (fun a b => pyStrLe_total _ _)
        (fun a b c => pyStrLe_trans _ _ _) documents
    · exact pyStableSortBy_sorted
        (fun a b : Document =>
          pyStrLe (a.meta.filename.getD "") (b.meta.filename.getD ""))
        (fun a b => pyStrLe_total _ _)
        (fun a b c => pyStrLe_trans _ _ _) documents2
    · exact (((perm_pyStableSortBy _ documents).map _).nodup_iff).mpr hnodup
  have hhash : hash_documents documents = hash_documents documents2 := by
    simp only [hash_documents]
    rw [hsorteq]
  simp only [generate_context_id]
  rw [hhash]

/-- C4 (witness): a concrete order-swap with distinct filename keys. -/
theorem c4_fingerprint_amended_witness :
    ([docFa, docFb].Perm [docFb, docFa]) ∧
    (([docFa, docFb].map (fun d => d.meta.filename.getD "")).Nodup) ∧
    generate_context_id [docFa, docFb] "q" "M" "auto" =
      generate_context_id [docFb, docFa] "q" "M" "auto" :=
  ⟨List.Perm.swap docFb docFa [], by with_unfolding_all decide,
   c4_fingerprint_amended [docFa, docFb] [docFb, docFa] "q" "M" "auto"
     (List.Perm.swap docFb docFa []) (by with_unfolding_all decide)⟩

/-! ## Claim C5 -/

/-- C5 (code bug): on the similarity-adaptation path
(`0.85 ≤ similarity < 0.95`), `_adapt_similar_context` already returns the
pair `(adapted_result, True)`, and the caller returns
`self._adapt_similar_context(...), True` — a nested `((result, True), True)`
that violates the annotated return type `Tuple[OptimizationResult, bool]`.
The adapted text does contain both queries and `strategy_used` does end in
`_adapted`, but the adapted result is never stored as a new cache entry:
both caches are unchanged by the second call. -/
theorem c5_adapted_nested_not_stored :
    Option.map
      (fun x : OptimizationResult × Bool × Bool =>
        (x.2.1, x.2.2, x.1.strategy_used,
         strContains x.1.optimized_context c5q1,
         strContains x.1.optimized_context c5q2))
      (nestedParts c5run2.1) =
      some (true, true, "none_adapted", true, true) ∧
    c5run2.2.memory_cache = c5run1.2.memory_cache ∧
    c5run2.2.persistent_cache = c5run1.2.persistent_cache := by
  refine ⟨?_, ?_, ?_⟩
  · with_unfolding_all decide
  · with_unfolding_all rfl
  · with_unfolding_all rfl

/-! ## Claim C6 -/

/-- C6 (counterexample): the claim says the chunk id depends on the document
identity and the position as well as on the text.
`DocumentChunk.__post_init__` computes `md5(content)[:8]` only: here the
content `"abc\n\nabc"` splits into two identical sections, and all four
chunks — two positions, two distinct documents — share the id
`"90015098"`. -/
theorem c6_id_ignores_doc_and_position :
    ((create_smart_chunks envBase c6content c6meta1).map (fun c => c.chunk_id)) =
      ["90015098", "90015098"] ∧
    ((create_smart_chunks envBase c6content c6meta2).map (fun c => c.chunk_id)) =
      ["90015098", "90015098"] := by
  with_unfolding_all decide

/-- C6 (amended): every chunk id produced by `_create_smart_chunks` is the
deterministic fingerprint `md5(content)[:8]` of the chunk text alone —
identical text always yields the same id, with no dependence on the
document or the position. -/
theorem c6_chunk_id_amended (env : Env) (content : String) (meta : DocMeta)
    (c : DocumentChunk) (hc : c ∈ create_smart_chunks env content meta) :
    c.chunk_id = pyTake (md5Hex (utf8Bytes c.content)) 8 := by
  simp only [create_smart_chunks, List.mem_map] at hc
  obtain ⟨p, hp, rfl⟩ := hc
  rfl

/-- C6 (witness): the first chunk of the counterexample content. -/
theorem c6_chunk_id_amended_witness :
    (mkChunk "abc" ⟨c6meta1, 0, "audition"⟩ 3 ∈
      create_smart_chunks envBase c6content c6meta1) ∧
    (mkChunk "abc" ⟨c6meta1, 0, "audition"⟩ 3).chunk_id =
      pyTake (md5Hex (utf8Bytes (mkChunk "abc" ⟨c6meta1, 0, "audition"⟩ 3).content)) 8 :=
  ⟨by with_unfolding_all decide,
   c6_chunk_id_amended envBase c6content c6meta1
     (mkChunk "abc" ⟨c6meta1, 0, "audition"⟩ 3) (by with_unfolding_all decide)⟩

/-! ## Claim C7 -/

/-- C7 (counterexample): the claim says the score always lies in `[0,1]`.
For a chunk whose document is dated 3650 days in the future, the freshness
term `1 - age_days/365` evaluates on a negative `age_days`, and the total
score exceeds 1 (here it is `7/5`). -/
theorem c7_score_above_one :
    1 < (score_chunk envBase "q" c7chunk).relevance_score := by
  with_unfolding_all decide

/-- C7 (amended): the score is the weighted sum
`0.4 * semantic + 0.3 * keyword + 0.2 * type + 0.1 * freshness` with the
semantic term the hard-coded constant `0.5` in every case (not merely when
an embedding collaborator is unavailable — the source computes and discards
the embedding), and the score lies in `[0,1]` provided the document is not
dated in the future. -/
theorem c7_score_amended (env : Env) (query : String) (chunk : DocumentChunk)
    (hdate : ∀ d, chunk.meta.doc.date = some d → 0 ≤ env.now - d) :
    (score_chunk env query chunk).relevance_score =
      (1/2) * (4/10) +
      (if tokSet query ≠ ∅ then
        ((tokSet query ∩ tokSet chunk.content).card : ℚ) / ((tokSet query).card : ℚ)
      else 0) * (3/10) +
      ((pyDictGet doc_type_scores (chunk.meta.doc.type.getD "")).getD (1/2)) * (2/10) +
      (match chunk.meta.doc.date with
       | none => (1/2 : ℚ)
       | some d =>
         max (1/10) (1 - ((Int.fdiv (env.now - d) 86400 : Int) : ℚ) / 365)) * (1/10) ∧
    0 ≤ (score_chunk env query chunk).relevance_score ∧
    (score_chunk env query chunk).relevance_score ≤ 1 := by
  have hK : 0 ≤ (if tokSet query ≠ ∅ then
      ((tokSet query ∩ tokSet chunk.content).card : ℚ) / ((tokSet query).card : ℚ)
    else 0) ∧
      (if tokSet query ≠ ∅ then
      ((tokSet query ∩ tokSet chunk.content).card : ℚ) / ((tokSet query).card : ℚ)
    else 0) ≤ 1 := by
    split
    · next hne =>
      have hcpos : 0 < ((tokSet query).card : ℚ) := by
        exact_mod_cast Finset.card_pos.mpr (Finset.nonempty_iff_ne_empty.mpr hne)
      constructor
      · exact div_nonneg (Nat.cast_nonneg _) (Nat.cast_nonneg _)
      · rw [div_le_one hcpos]
        exact_mod_cast Finset.card_le_card (Finset.inter_subset_left)
    · norm_num
  have hT := typeScore_bounds (chunk.meta.doc.type.getD "")
  have hD : (1/10 : ℚ) ≤ (match chunk.meta.doc.date with
       | none => (1/2 : ℚ)
       | some d =>
         max (1/10) (1 - ((Int.fdiv (env.now - d) 86400 : Int) : ℚ) / 365)) ∧
      (match chunk.meta.doc.date with
       | none => (1/2 : ℚ)
       | some d =>
         max (1/10) (1 - ((Int.fdiv (env.now - d) 86400 : Int) : ℚ) / 365)) ≤ 1 := by
    cases hdd : chunk.meta.doc.date with
    | none => norm_num
    | some d =>
      have h0 : (0 : ℚ) ≤ ((Int.fdiv (env.now - d) 86400 : Int) : ℚ) := by
        exact_mod_cast Int.fdiv_nonneg (hdate d hdd) (by norm_num)
      refine ⟨le_max_left _ _, max_le (by norm_num) ?_⟩
      have : (0 : ℚ) ≤ ((Int.fdiv (env.now - d) 86400 : Int) : ℚ) / 365 := by positivity
      linarith
  refine ⟨by simp only [score_chunk], ?_, ?_⟩
  · show (0 : ℚ) ≤ (1/2) * (4/10) + _ * (3/10) + _ * (2/10) + _ * (1/10)
    obtain ⟨hK0, hK1⟩ := hK
    obtain ⟨hT0, hT1⟩ := hT
    obtain ⟨hD0, hD1⟩ := hD
    nlinarith
  · show (1/2 : ℚ) * (4/10) + _ * (3/10) + _ * (2/10) + _ * (1/10) ≤ 1
    obtain ⟨hK0, hK1⟩ := hK
    obtain ⟨hT0, hT1⟩ := hT
    obtain ⟨hD0, hD1⟩ := hD
    nlinarith

/-- C7 (witness): a dateless chunk over the base environment. -/
theorem c7_score_amended_witness :
    (∀ d, (mkChunk "hi" ⟨metaNone, 0, "general"⟩ 2).meta.doc.date = some d →
      0 ≤ envBase.now - d) ∧
    (0 ≤ (score_chunk envBase "q" (mkChunk "hi" ⟨metaNone, 0, "general"⟩ 2)).relevance_score ∧
     (score_chunk envBase "q" (mkChunk "hi" ⟨metaNone, 0, "general"⟩ 2)).relevance_score ≤ 1) :=
  ⟨(fun _ h => nomatch h),
   (c7_score_amended envBase "q" (mkChunk "hi" ⟨metaNone, 0, "general"⟩ 2)
     (fun _ h => nomatch h)).2⟩

/-! ## Claim C8 -/

/-- C8 (counterexample): the claim says the failure fallback is a bounded
head+tail truncation with an elision marker, recorded in metadata.  With
the generation collaborator failing, `_generate_summary` on a 600-character
input with requested bound 100 returns `content[:500]` — 500 characters,
five times the bound, with no elision marker (and `_generate_summary`
returns a bare string: there is nothing recording the fallback). -/
theorem c8_fallback_unbounded :
    (generate_summary envBase a600 1 "q" 100).length = 500 ∧
    100 < (generate_summary envBase a600 1 "q" 100).length ∧
    strContains (generate_summary envBase a600 1 "q" 100) "[contenu résumé]" = false := by
  with_unfolding_all decide

/-- C8 (amended): when the generation collaborator is present but fails,
the summarizer still returns text deterministically — the plain prefix
truncation `content[:max_length * 5]`, whose length is bounded by
`5 * max_length` (not by `max_length`); the head+tail windowing with the
elision marker is only the no-collaborator path, and no fallback flag is
recorded anywhere. -/
theorem c8_fallback_amended (env : Env) (content focus : String)
    (level max_length : Nat) (hLLM : env.hasLLM = true)
    (hfail : ∀ p n, env.generate p n = none) :
    generate_summary env content level focus max_length =
      pyTake content (max_length * 5) ∧
    (generate_summary env content level focus max_length).length ≤ max_length * 5 := by
  have h1 : generate_summary env content level focus max_length =
      pyTake content (max_length * 5) := by
    simp [generate_summary, hLLM, hfail]
  exact ⟨h1, h1 ▸ pyTake_length_le content (max_length * 5)⟩

/-- C8 (witness): the counterexample input instantiates the amended
fallback equation. -/
theorem c8_fallback_amended_witness :
    (envBase.hasLLM = true) ∧ (∀ p n, envBase.generate p n = none) ∧
    (generate_summary envBase a600 1 "q" 100 = pyTake a600 (100 * 5) ∧
     (generate_summary envBase a600 1 "q" 100).length ≤ 100 * 5) :=
  ⟨rfl, (fun _ _ => rfl),
   c8_fallback_amended envBase a600 "q" 1 100 rfl (fun _ _ => rfl)⟩

/-! ## Claim C10 -/

/-- C10 (counterexample): the claim says similarity 1.0 holds whenever the
lowercased token sets are equal, and that a case-only repeat of a cached
query reaches the ≥ 0.95 similarity branch.  Both fail: two token-free
queries have equal (empty) token sets yet similarity 0, and a case-only
repeat never reaches the similarity path at all — `_generate_context_id`
lowercases the query, so the repeat is an exact cache hit (`from_cache =
true`, plain result shape, strategy unchanged, nothing adapted). -/
theorem c10_case_repeat_exact_hit :
    calculate_query_similarity "" "" = 0 ∧
    tokSet "" = tokSet "" ∧
    getOutFlag c10run2.1 = some true ∧
    strContains ((getOutStrategy c10run2.1).getD "adapted") "adapted" = false ∧
    nestedParts c10run2.1 = none := by
  with_unfolding_all decide

/-- C10 (amended): `_calculate_query_similarity` is symmetric, bounded in
`[0,1]`, returns 0 whenever either query has no whitespace tokens, and
returns 1 whenever the two lowercased token sets are equal *and nonempty*
(for empty token sets the zero guard wins, see the counterexample).  Of the
claim's final clause only the word-order half survives: a word-order-only
repeat of a cached query gets a different fingerprint, misses the exact
cache, and is served by the ≥ 0.95 verbatim-reuse branch (similarity 1,
`from_cache = true`, strategy unchanged, `adapted = false`, in the nested
return shape of that path) — whereas a case-only repeat is an exact
fingerprint hit that never reaches the similarity path. -/
theorem c10_similarity_amended (q1 q2 e1 e2 : String)
    (he : tokSet e1 = ∅) (heq : tokSet q1 = tokSet q2) (hne : tokSet q1 ≠ ∅) :
    calculate_query_similarity q1 q2 = calculate_query_similarity q2 q1 ∧
    0 ≤ calculate_query_similarity q1 q2 ∧
    calculate_query_similarity q1 q2 ≤ 1 ∧
    calculate_query_similarity e1 e2 = 0 ∧
    calculate_query_similarity q1 q2 = 1 ∧
    generate_context_id [docHi] "beta alpha" "M" "auto" ≠
      generate_context_id [docHi] "Alpha Beta" "M" "auto" ∧
    Option.map (fun x : OptimizationResult × Bool × Bool =>
        (x.2.1, x.2.2, x.1.strategy_used, pyDictGet x.1.metadata "adapted"))
      (nestedParts c10run3.1) =
      some (true, true, "none", some (MetaVal.b false)) :=
  ⟨calcSim_symm q1 q2, (calcSim_bounds q1 q2).1, (calcSim_bounds q1 q2).2,
   calcSim_empty e1 e2 (Or.inl he), calcSim_eq_one q1 q2 heq hne,
   by with_unfolding_all decide, by with_unfolding_all decide⟩

/-- C10 (witness): the case-only pair of queries from the counterexample
trace, with a token-free query for the zero clause. -/
theorem c10_similarity_amended_witness :
    (tokSet "" = ∅) ∧ (tokSet "Alpha Beta" = tokSet "alpha beta") ∧
    (tokSet "Alpha Beta" ≠ ∅) ∧
    (calculate_query_similarity "Alpha Beta" "alpha beta" =
      calculate_query_similarity "alpha beta" "Alpha Beta" ∧
     0 ≤ calculate_query_similarity "Alpha Beta" "alpha beta" ∧
     calculate_query_similarity "Alpha Beta" "alpha beta" ≤ 1 ∧
     calculate_query_similarity "" "zz" = 0 ∧
     calculate_query_similarity "Alpha Beta" "alpha beta" = 1 ∧
     generate_context_id [docHi] "beta alpha" "M" "auto" ≠
       generate_context_id [docHi] "Alpha Beta" "M" "auto" ∧
     Option.map (fun x : OptimizationResult × Bool × Bool =>
         (x.2.1, x.2.2, x.1.strategy_used, pyDictGet x.1.metadata "adapted"))
       (nestedParts c10run3.1) =
       some (true, true, "none", some (MetaVal.b false))) :=
  ⟨by with_unfolding_all decide, by with_unfolding_all decide,
   by with_unfolding_all decide,
   c10_similarity_amended "Alpha Beta" "alpha beta" "" "zz"
     (by with_unfolding_all decide) (by with_unfolding_all decide)
     (by with_unfolding_all decide)⟩
